import Mathlib

/-!
# Verification of the multimodal-agent-builder repository

Shallow embedding, in Lean 4, of the parts of the repository that the
frozen claims C1-C10 are about, together with theorems settling each
claim.  Every definition in the `Code` namespaces below is translated
from the Python source under the repository tree (file and line
references are given in the doc comments); definitions marked
`Modelled from the spec:` stand in for repository code that is not
present in the provided sources (the extended `Settings` fields of the
authoritative configuration module).
-/

namespace MAB

/-! ## Common vocabulary: messages and responses

From `src/models/base_llm.py` (`MessageRole`, `Message`) and
`src/agents/base_agent.py` (`AgentResponse`, `AgentState`).
Fields of `AgentResponse` that no claim mentions (`raw_response`,
`metadata`, `timestamp`) are omitted from the embedding.
-/

/-- Enumeration `MessageRole` (base_llm.py). -/
inductive MessageRole where
  | system
  | user
  | assistant
  | function
deriving DecidableEq, Repr

/-- Structure `Message` (base_llm.py): role plus plain-text content.  The structured
multi-part content variant is not needed by any claim. -/
structure Message where
  role : MessageRole
  content : String
deriving DecidableEq, Repr

/-- Structure `LLMResponse` (base_llm.py), reduced to the fields the agent layer reads. -/
structure LLMResponse where
  content : String
  usage : List (String × Nat)
deriving DecidableEq, Repr

/-- Structure `AgentResponse` (base_agent.py); its `state` defaults to `"completed"`
(`AgentState.COMPLETED.value`). -/
structure AgentResponse where
  agent_id : String
  agent_name : String
  content : String
  state : String := "completed"
  error : Option String := none
  usage : Option (List (String × Nat)) := none
deriving DecidableEq, Repr

/-! ## Gemini capability table (C7)

From `src/models/gemini_client.py`, `GeminiClient.MODEL_CAPABILITIES`
(lines 19-62) and the capability properties (lines 402-432).
-/

/-- One entry of `GeminiClient.MODEL_CAPABILITIES`. -/
structure GeminiCaps where
  vision : Bool
  functions : Bool
  streaming : Bool
  max_context : Nat
  max_output : Nat
deriving DecidableEq, Repr

/-- Table `GeminiClient.MODEL_CAPABILITIES` (gemini_client.py lines 19-62). -/
def geminiModelCapabilities : List (String × GeminiCaps) :=
  [ ("gemini-2.5-flash",  ⟨true,  true,  true, 1048576, 8192⟩)
  , ("gemini-2.5-pro",    ⟨true,  true,  true, 2097152, 8192⟩)
  , ("gemini-1.5-flash",  ⟨true,  true,  true, 1048576, 8192⟩)
  , ("gemini-1.5-pro",    ⟨true,  true,  true, 2097152, 8192⟩)
  , ("gemini-pro",        ⟨false, true,  true, 32768,   8192⟩)
  , ("gemini-pro-vision", ⟨true,  false, true, 16384,   2048⟩) ]

/-- Lookup `dict.get(self.model, default)` over the capability table. -/
def geminiLookupCaps (model : String) : Option GeminiCaps :=
  geminiModelCapabilities.lookup model

/-- Property `GeminiClient.supports_functions` (lines 402-408): table lookup with
default `{"functions": False}`. -/
def geminiSupportsFunctions (model : String) : Bool :=
  match geminiLookupCaps model with
  | some c => c.functions
  | none => false

/-- Property `GeminiClient.supports_vision` (lines 410-416): default `{"vision": False}`. -/
def geminiSupportsVision (model : String) : Bool :=
  match geminiLookupCaps model with
  | some c => c.vision
  | none => false

/-- Property `GeminiClient.supports_streaming` (lines 418-424): default
`{"streaming": True}`. -/
def geminiSupportsStreaming (model : String) : Bool :=
  match geminiLookupCaps model with
  | some c => c.streaming
  | none => true

/-- Property `GeminiClient.max_context_length` (lines 426-432): default
`{"max_context": 32768}`. -/
def geminiMaxContextLength (model : String) : Nat :=
  match geminiLookupCaps model with
  | some c => c.max_context
  | none => 32768

/-! ## Timestamps: `datetime.utcnow().isoformat()` (C4)

Appended ledger rows are stamped in `RecursiveLoop.__post_init__`
(training_utils.py lines 27-29) with `datetime.utcnow().isoformat()`.
A Python `datetime` is embedded as its seven components; `isoformat`
produces `YYYY-MM-DDTHH:MM:SS` plus `.ffffff` when the microsecond
component is non-zero, exactly as CPython renders it.
-/

/-- Decimal digit character for `n ≤ 9` (clamping above, never hit in use). -/
def digitChar : Nat → Char
  | 0 => '0' | 1 => '1' | 2 => '2' | 3 => '3' | 4 => '4'
  | 5 => '5' | 6 => '6' | 7 => '7' | 8 => '8' | _ => '9'

/-- Numeric value of a decimal digit character. -/
def digitVal (c : Char) : Nat := c.toNat - 48

/-- Test for a decimal digit character (codepoints 48-57). -/
def isDigitChar (c : Char) : Bool := decide (48 ≤ c.toNat ∧ c.toNat ≤ 57)

/-- Python `f"{n:02d}"` for `n < 100`, as a character list. -/
def pad2 (n : Nat) : List Char := [digitChar (n / 10), digitChar (n % 10)]

/-- Python `f"{n:04d}"` for `n < 10000`, as a character list. -/
def pad4 (n : Nat) : List Char :=
  [digitChar (n / 1000), digitChar (n / 100 % 10), digitChar (n / 10 % 10), digitChar (n % 10)]

/-- Python `f"{n:06d}"` for `n < 1000000`, as a character list. -/
def pad6 (n : Nat) : List Char :=
  [digitChar (n / 100000), digitChar (n / 10000 % 10), digitChar (n / 1000 % 10),
   digitChar (n / 100 % 10), digitChar (n / 10 % 10), digitChar (n % 10)]

/-- Embedding of a Python `datetime` instant (as produced by `datetime.utcnow()`). -/
structure PyDateTime where
  year : Nat
  month : Nat
  day : Nat
  hour : Nat
  minute : Nat
  second : Nat
  microsecond : Nat
deriving DecidableEq, Repr

/-- Component bounds `datetime` itself enforces (`MINYEAR = 1`, `MAXYEAR = 9999`). -/
def PyDateTime.valid (d : PyDateTime) : Prop :=
  1 ≤ d.year ∧ d.year ≤ 9999 ∧ 1 ≤ d.month ∧ d.month ≤ 12 ∧ 1 ≤ d.day ∧ d.day ≤ 31 ∧
  d.hour ≤ 23 ∧ d.minute ≤ 59 ∧ d.second ≤ 59 ∧ d.microsecond ≤ 999999

instance (d : PyDateTime) : Decidable d.valid := by
  unfold PyDateTime.valid; infer_instance

/-- Character stream of `datetime.isoformat()` (default separator `T`;
the `.ffffff` fraction is emitted only for a non-zero microsecond). -/
def PyDateTime.isoformatChars (d : PyDateTime) : List Char :=
  pad4 d.year ++ '-' :: (pad2 d.month ++ '-' :: (pad2 d.day ++ 'T' ::
    (pad2 d.hour ++ ':' :: (pad2 d.minute ++ ':' :: (pad2 d.second ++
      (if d.microsecond = 0 then [] else '.' :: pad6 d.microsecond))))))

/-- Python `datetime.isoformat()`. -/
def PyDateTime.isoformat (d : PyDateTime) : String := String.mk d.isoformatChars

/-- Acceptance of the optional fraction part of an ISO-8601 instant:
either nothing, or a dot followed by at least one digit. -/
def isoFracOk : List Char → Bool
  | [] => true
  | c :: fs => c == '.' && !fs.isEmpty && fs.all isDigitChar

/-- Decision procedure for "this string parses as a valid ISO-8601 instant"
(date and time joined by `T`, fields in range, optional fractional seconds) —
the property the spec asserts of a ledger row's `Timestamp`. -/
def isValidIso8601 (s : String) : Bool :=
  match s.data with
  | y1 :: y2 :: y3 :: y4 :: a1 :: m1 :: m2 :: a2 :: d1 :: d2 :: a3 ::
      h1 :: h2 :: a4 :: n1 :: n2 :: a5 :: s1 :: s2 :: rest =>
    a1 == '-' && a2 == '-' && a3 == 'T' && a4 == ':' && a5 == ':' &&
    [y1, y2, y3, y4, m1, m2, d1, d2, h1, h2, n1, n2, s1, s2].all isDigitChar &&
    decide (1 ≤ 10 * digitVal m1 + digitVal m2 ∧ 10 * digitVal m1 + digitVal m2 ≤ 12) &&
    decide (1 ≤ 10 * digitVal d1 + digitVal d2 ∧ 10 * digitVal d1 + digitVal d2 ≤ 31) &&
    decide (10 * digitVal h1 + digitVal h2 ≤ 23) &&
    decide (10 * digitVal n1 + digitVal n2 ≤ 59) &&
    decide (10 * digitVal s1 + digitVal s2 ≤ 59) &&
    isoFracOk rest
  | _ => false

/-! ## Recursive loop closure ledger (C4, C5)

From `src/utils/training_utils.py`: `RecursiveLoop` (lines 15-29),
`RecursiveLoopClosureLedger.detect_and_log_closure` (lines 48-86) and
`ClosureRecognitionAgent.detect_closure` (lines 145-171).
-/

/-- Drop of leading whitespace characters from a character list. -/
def dropWhitespace : List Char → List Char
  | [] => []
  | c :: cs => if c.isWhitespace then dropWhitespace cs else c :: cs

/-- Python `str.strip()`: remove leading and trailing whitespace. -/
def pyStrip (s : String) : String :=
  String.mk ((dropWhitespace (dropWhitespace s.data).reverse).reverse)

/-- Embedding of a Python argument that is either a string or some
non-string value (the validation in `detect_closure` tests
`isinstance(v, str)`). -/
inductive PyVal where
  | str (s : String)
  | nonString
deriving DecidableEq, Repr

/-- String payload of a `PyVal`; only ever read on values known to be strings. -/
def PyVal.asString : PyVal → String
  | .str s => s
  | .nonString => ""

/-- Validation of `ClosureRecognitionAgent.detect_closure` (line 161):
`all([isinstance(v, str) and v.strip() for v in [hypothesis, pattern, structure]])`
(a string is truthy after `.strip()` iff trimming leaves it non-empty). -/
def detectClosureValid (hyp pat st : PyVal) : Bool :=
  [hyp, pat, st].all fun v =>
    match v with
    | .str s => pyStrip s != ""
    | .nonString => false

/-- Row of the closure ledger, `RecursiveLoop` (training_utils.py lines 15-29).
The Python field `structure` is a Lean keyword and is rendered `struct`. -/
structure RecursiveLoop where
  loop_id : String
  topic : String
  hypothesis : String
  pattern : String
  struct : String
  why_closed : String
  timestamp : String
deriving DecidableEq, Repr

/-- Python `f"{n:03d}"`: decimal rendering zero-padded to at least 3 digits. -/
def format03 (n : Nat) : String :=
  let s := toString n
  if s.length < 3 then String.mk (List.replicate (3 - s.length) '0') ++ s else s

/-- Method `RecursiveLoopClosureLedger.detect_and_log_closure`
(training_utils.py lines 48-86), acting on the ledger's `closed_loops`
list.  Returns the Python return value paired with the row list after
the call.  `now` is the `datetime.utcnow()` instant at which the
appended row's `__post_init__` stamps `timestamp`.  (The method also
appends to the recognition agent's private list and, when a backing
file is configured, rewrites it via `save_ledger` — see
`saveLedgerString` below; neither affects the returned rows.) -/
def detectAndLogClosure (rows : List RecursiveLoop) (hyp pat st : PyVal)
    (explanation topic : String) (now : PyDateTime) : Bool × List RecursiveLoop :=
  if detectClosureValid hyp pat st then
    let n := rows.length
    let loop : RecursiveLoop :=
      { loop_id := "RL-" ++ format03 (n + 1)
      , topic := if topic = "" then "Loop " ++ toString (n + 1) else topic
      , hypothesis := hyp.asString
      , pattern := pat.asString
      , struct := st.asString
      , why_closed := explanation
      , timestamp := now.isoformat }
    (true, rows ++ [loop])
  else
    (false, rows)


/-! ## CSV persistence: `DataFrame.to_csv` / `pd.read_csv` (C5, C6)

Character-level model of the pandas CSV pipeline used by
`RecursiveLoopClosureLedger.save_ledger` / `load_ledger`
(training_utils.py lines 88-134) and `GuardianAgent.scan_ledger`
(guardian_agent.py lines 20-39):

* writing: the Python `csv` writer with `QUOTE_MINIMAL` — a field is
  quoted iff it contains the delimiter, the quote character or a line
  break, quotes are doubled, records are terminated by `"\n"`;
* reading: fields are scanned back (honouring quoting), then each
  *column* undergoes the pandas type conversion — default NA tokens
  become `NaN`, all-numeric columns become numeric, all-boolean columns
  become boolean, anything else stays a string (object) column.
-/

/-- Value of one DataFrame cell after the pandas type conversion.
`num lit` stands for "the numeric (int64/float64) value pandas parsed
from the literal `lit`"; no claim depends on the numeric value itself,
only on the fact that it is not a Python string. -/
inductive CsvCell where
  | str (s : String)
  | nan
  | num (lit : String)
  | bool (b : Bool)
deriving DecidableEq, Repr

/-- Quoting test of `csv.QUOTE_MINIMAL`. -/
def csvNeedsQuoting (s : String) : Bool :=
  s.data.any fun c => c == ',' || c == '"' || c == '\n' || c == '\r'

/-- Doubling of embedded quote characters inside a quoted field. -/
def csvEscapeChars : List Char → List Char
  | [] => []
  | c :: cs => if c = '"' then '"' :: '"' :: csvEscapeChars cs else c :: csvEscapeChars cs

/-- Single encoded CSV field (quoted only when necessary). -/
def csvEncodeField (s : String) : List Char :=
  if csvNeedsQuoting s then '"' :: (csvEscapeChars s.data ++ ['"']) else s.data

/-- Comma-joined encoded record. -/
def csvEncodeRecord : List String → List Char
  | [] => []
  | [f] => csvEncodeField f
  | f :: rest => csvEncodeField f ++ ',' :: csvEncodeRecord rest

/-- Whole file: every record followed by a `"\n"` terminator. -/
def csvEncodeFile (records : List (List String)) : List Char :=
  (records.map fun r => csvEncodeRecord r ++ ['\n']).flatten

/-- Scanner for the inside of a quoted field (after the opening quote);
doubled quotes decode to one quote, the closing quote ends the field.
The fuel argument only discharges termination; `fuel = input length`
always suffices. -/
def csvScanQuoted (fuel : Nat) (cs : List Char) (acc : List Char) :
    List Char × List Char :=
  match fuel, cs with
  | 0, cs => (acc.reverse, cs)
  | _ + 1, [] => (acc.reverse, [])
  | fuel + 1, c :: cs =>
    if c = '"' then
      match cs with
      | [] => (acc.reverse, [])
      | c2 :: cs2 =>
        if c2 = '"' then csvScanQuoted fuel cs2 ('"' :: acc)
        else (acc.reverse, c2 :: cs2)
    else csvScanQuoted fuel cs (c :: acc)

/-- Scanner for an unquoted field: stops before a delimiter or line break. -/
def csvScanUnquoted : List Char → List Char × List Char
  | [] => ([], [])
  | c :: cs =>
    if c = ',' ∨ c = '\n' ∨ c = '\r' then ([], c :: cs)
    else
      let fr := csvScanUnquoted cs
      (c :: fr.1, fr.2)

/-- Scanner for one field, choosing the quoted or unquoted mode. -/
def csvScanField (cs : List Char) : List Char × List Char :=
  match cs with
  | [] => ([], [])
  | c :: rest =>
    if c = '"' then csvScanQuoted rest.length rest []
    else csvScanUnquoted (c :: rest)

/-- Scanner for one record: comma-separated fields up to a line break
(accepting `\n`, `\r\n` or `\r`).  The fuel bounds the field count. -/
def csvScanRecord (fuel : Nat) (cs : List Char) : List String × List Char :=
  match fuel with
  | 0 => ([], cs)
  | fuel + 1 =>
    let fr := csvScanField cs
    match fr.2 with
    | [] => ([String.mk fr.1], [])
    | c :: rest =>
      if c = ',' then
        let rr := csvScanRecord fuel rest
        (String.mk fr.1 :: rr.1, rr.2)
      else if c = '\n' then ([String.mk fr.1], rest)
      else if c = '\r' then
        match rest with
        | '\n' :: rest2 => ([String.mk fr.1], rest2)
        | _ => ([String.mk fr.1], rest)
      else ([String.mk fr.1], c :: rest)

/-- Scanner for all records; blank records (one empty field) are skipped,
mirroring `skip_blank_lines=True`.  The fuel bounds the record count. -/
def csvScanRecords (fuel : Nat) (cs : List Char) : List (List String) :=
  match fuel with
  | 0 => []
  | fuel + 1 =>
    match cs with
    | [] => []
    | _ :: _ =>
      let rr := csvScanRecord (cs.length + 1) cs
      let recs := csvScanRecords fuel rr.2
      if rr.1 = [""] then recs else rr.1 :: recs

/-- Record structure of a CSV document. -/
def csvParse (content : String) : List (List String) :=
  csvScanRecords (content.data.length + 1) content.data

/-- Default NA tokens of `pd.read_csv`. -/
def pandasNaTokens : List String :=
  ["", "#N/A", "#N/A N/A", "#NA", "-1.#IND", "-1.#QNAN", "-NaN", "-nan",
   "1.#IND", "1.#QNAN", "<NA>", "N/A", "NA", "NULL", "NaN", "None",
   "n/a", "nan", "null"]

/-- Membership in the NA token set. -/
def isNaToken (s : String) : Bool := pandasNaTokens.contains s

/-- Non-empty all-digit character list. -/
def allDigits (cs : List Char) : Bool := !cs.isEmpty && cs.all isDigitChar

/-- Integer literal as accepted by the pandas tokenizer: optional sign,
then at least one digit. -/
def isIntToken (s : String) : Bool :=
  match s.data with
  | '+' :: cs => allDigits cs
  | '-' :: cs => allDigits cs
  | cs => allDigits cs

/-- Split of a character list at the first exponent marker `e`/`E`. -/
def splitAtExp : List Char → List Char × Option (List Char)
  | [] => ([], none)
  | c :: cs =>
    if c = 'e' || c = 'E' then ([], some cs)
    else
      let me := splitAtExp cs
      (c :: me.1, me.2)

/-- Mantissa of a float literal: digits, optionally with one decimal
point, at least one digit overall. -/
def floatMantissaOk (cs : List Char) : Bool :=
  let ip := cs.takeWhile isDigitChar
  match cs.dropWhile isDigitChar with
  | [] => !ip.isEmpty
  | c :: frac =>
    c == '.' && frac.all isDigitChar && (!ip.isEmpty || !frac.isEmpty)

/-- Exponent part: optional sign then at least one digit. -/
def floatExpOk : List Char → Bool
  | '+' :: ds => allDigits ds
  | '-' :: ds => allDigits ds
  | ds => allDigits ds

/-- Float literal as accepted by the pandas tokenizer (model): optional
sign, then a decimal mantissa with optional exponent, or an infinity
token. -/
def isFloatToken (s : String) : Bool :=
  let cs := match s.data with
    | '+' :: t => t
    | '-' :: t => t
    | t => t
  if ["inf", "Inf", "INF", "infinity", "Infinity"].contains (String.mk cs) then true
  else
    let me := splitAtExp cs
    floatMantissaOk me.1 &&
      (match me.2 with
       | none => true
       | some ex => floatExpOk ex)

/-- Boolean literal as accepted by the pandas bool column inference. -/
def isBoolToken (s : String) : Bool :=
  ["True", "TRUE", "False", "FALSE"].contains s

/-- Conversion of one raw column, mirroring the pandas per-column dtype
inference: an all-numeric-or-NA column (with at least one non-NA value)
becomes numeric, an all-boolean column becomes boolean, every other
column is an object column in which NA tokens become `NaN` and all
other values stay strings. -/
def convertColumn (vals : List String) : List CsvCell :=
  if (vals.all fun v => isNaToken v || isIntToken v || isFloatToken v) &&
      (vals.any fun v => !isNaToken v) then
    vals.map fun v => if isNaToken v then CsvCell.nan else CsvCell.num v
  else if !vals.isEmpty && vals.all isBoolToken then
    vals.map fun v => CsvCell.bool (v == "True" || v == "TRUE")
  else
    vals.map fun v => if isNaToken v then CsvCell.nan else CsvCell.str v

/-- Parsed tabular file: header and row-major converted cells. -/
structure DataFrame where
  columns : List String
  cells : List (List CsvCell)
deriving DecidableEq, Repr

/-- Model of `pd.read_csv`: first record is the header, remaining
records are data rows, each column converted by `convertColumn`
(`none` models the `EmptyDataError` raised on an empty file). -/
def readCsv (content : String) : Option DataFrame :=
  match csvParse content with
  | [] => none
  | header :: dataRows =>
    let cols := (List.range header.length).map fun j =>
      convertColumn (dataRows.map fun r => r.getD j "")
    some { columns := header
         , cells := (List.range dataRows.length).map fun i =>
             cols.map fun col => col.getD i CsvCell.nan }

/-- Column order of `get_ledger_df` (training_utils.py lines 88-107). -/
def ledgerHeader : List String :=
  ["Loop ID", "Topic", "Hypothesis", "Pattern", "Structure", "Why Closed", "Timestamp"]

/-- Field list of one ledger row in the `get_ledger_df` column order. -/
def RecursiveLoop.toFields (l : RecursiveLoop) : List String :=
  [l.loop_id, l.topic, l.hypothesis, l.pattern, l.struct, l.why_closed, l.timestamp]

/-- Method `save_ledger` (training_utils.py lines 109-114):
`get_ledger_df().to_csv(path, index=False)` — the full file content. -/
def saveLedgerString (rows : List RecursiveLoop) : String :=
  String.mk (csvEncodeFile (ledgerHeader :: rows.map RecursiveLoop.toFields))

/-- Ledger row as re-hydrated by `load_ledger`: the dataclass is rebuilt
from whatever Python values the DataFrame holds, so every field is a
`CsvCell`, not necessarily a string. -/
structure LoadedLoop where
  loop_id : CsvCell
  topic : CsvCell
  hypothesis : CsvCell
  pattern : CsvCell
  struct : CsvCell
  why_closed : CsvCell
  timestamp : CsvCell
deriving DecidableEq, Repr

/-- Label lookup `row[name]` on a data row (`load_ledger` only reads
columns that `save_ledger` wrote, so the missing-label `KeyError` case
cannot occur on files produced by `save_ledger`; `.nan` is a formal
placeholder for it). -/
def cellAtLabel (columns : List String) (row : List CsvCell) (name : String) : CsvCell :=
  match columns.findIdx? (fun c => c == name) with
  | some j => row.getD j CsvCell.nan
  | none => CsvCell.nan

/-- Method `load_ledger` (training_utils.py lines 116-134) applied to an
already-parsed DataFrame (`row.get("Timestamp", "")` defaults to the
empty string when the column is absent). -/
def loadLedgerFromFrame (df : DataFrame) : List LoadedLoop :=
  df.cells.map fun r =>
    { loop_id := cellAtLabel df.columns r "Loop ID"
    , topic := cellAtLabel df.columns r "Topic"
    , hypothesis := cellAtLabel df.columns r "Hypothesis"
    , pattern := cellAtLabel df.columns r "Pattern"
    , struct := cellAtLabel df.columns r "Structure"
    , why_closed := cellAtLabel df.columns r "Why Closed"
    , timestamp :=
        match df.columns.findIdx? (fun c => c == "Timestamp") with
        | some j => r.getD j CsvCell.nan
        | none => CsvCell.str "" }

/-- Re-hydration performed by `RecursiveLoopClosureLedger.__init__`
(training_utils.py lines 35-46) on a backing file with this content:
`pd.read_csv` then row-wise `RecursiveLoop` reconstruction. -/
def loadLedgerString (content : String) : Option (List LoadedLoop) :=
  (readCsv content).map loadLedgerFromFrame

/-- CSV-stable string: not reinterpreted by the pandas reader — not an
NA token (in particular not empty), not an integer, float or boolean
literal. -/
def csvStable (s : String) : Bool :=
  !isNaToken s && !isIntToken s && !isFloatToken s && !isBoolToken s

/-- Stability of a whole ledger row. -/
def RecursiveLoop.stable (l : RecursiveLoop) : Bool :=
  l.toFields.all csvStable

/-- Expected re-hydrated image of a ledger row when nothing is
reinterpreted. -/
def loopAsLoaded (l : RecursiveLoop) : LoadedLoop :=
  { loop_id := CsvCell.str l.loop_id
  , topic := CsvCell.str l.topic
  , hypothesis := CsvCell.str l.hypothesis
  , pattern := CsvCell.str l.pattern
  , struct := CsvCell.str l.struct
  , why_closed := CsvCell.str l.why_closed
  , timestamp := CsvCell.str l.timestamp }


/-! ## Guardian agent (C6)

From `src/agents/guardian_agent.py`, `GuardianAgent.scan_ledger`
(lines 20-39) over the parsed ledger file.
-/

/-- Table `GuardianAgent.REQUIRED_COLUMNS` (guardian_agent.py lines 13-15). -/
def guardianRequiredColumns : List String :=
  ["Loop ID", "Topic", "Hypothesis", "Pattern", "Structure", "Why Closed", "Timestamp"]

/-- Count of values that equal an earlier value in the list —
`df.duplicated(subset=["Loop ID"]).sum()`; pandas treats `NaN` as equal
to `NaN` here, as does the derived equality of `CsvCell`. -/
def dupCountAux (seen : List CsvCell) : List CsvCell → Nat
  | [] => 0
  | c :: cs => (if seen.contains c then 1 else 0) + dupCountAux (c :: seen) cs

/-- Duplicate count starting from no seen values. -/
def dupCount (l : List CsvCell) : Nat := dupCountAux [] l

/-- Count of `NaN` cells in column `j` (`df.isnull().sum()` for one column). -/
def nullCountAt (cells : List (List CsvCell)) (j : Nat) : Nat :=
  (cells.map fun r => r.getD j CsvCell.nan).count CsvCell.nan

/-- Successful result dictionary of `scan_ledger`.  The `hash` key (an
order-sensitive content hash kept for tamper evidence) is not modelled;
no claim mentions it. -/
structure ScanReport where
  status : String
  rows : Nat
  columns : List String
  missing_columns : List String
  rows_missing_data : List (String × Nat)
  duplicated_loop_ids : Nat
deriving DecidableEq, Repr

/-- The two result-dictionary shapes `scan_ledger` can return. -/
inductive ScanOutcome where
  | missingFile (status msg : String)
  | report (r : ScanReport)
deriving DecidableEq, Repr

/-- Method `GuardianAgent.scan_ledger` (guardian_agent.py lines 20-39).
`file` is the parsed content at the ledger path (`none` = absent file).
`Except.error` models an uncaught Python exception: when the `Loop ID`
column is absent, `df.duplicated(subset=["Loop ID"])` on line 28 raises
`KeyError` before the result dictionary is ever built. -/
def scanLedger (file : Option DataFrame) : Except String ScanOutcome :=
  match file with
  | none => .ok (.missingFile "error" "No ledger found at path")
  | some df =>
    let missing_cols := guardianRequiredColumns.filter fun c => !df.columns.contains c
    let missing_data :=
      (df.columns.enum.map fun p => (p.2, nullCountAt df.cells p.1)).filter
        fun p => p.2 != 0
    match df.columns.findIdx? (fun c => c == "Loop ID") with
    | none => .error "KeyError: [Loop ID]"
    | some j =>
      let dup := dupCount (df.cells.map fun r => r.getD j CsvCell.nan)
      let anyNull := df.cells.any fun r => r.any fun c => c == CsvCell.nan
      .ok (.report
        { status := if missing_cols.isEmpty && !anyNull && dup == 0 then "ok" else "warn"
        , rows := df.cells.length
        , columns := df.columns
        , missing_columns := missing_cols
        , rows_missing_data := missing_data
        , duplicated_loop_ids := dup })


/-! ## Base agent framework (C3, C9) and multimodal agent (C10)

From `src/agents/base_agent.py` (authoritative tree): `AgentMemory`
(lines 37-65), `AgentConfig` (lines 68-87), `BaseAgent.run`
(lines 199-262), `BaseAgent._maybe_log_loop_closure` (lines 265-299),
`BaseAgent.chat` (lines 317-383); and from the older tree
`multimodal-agent-builder/src/agents/multimodal_agent.py`:
`MultimodalAgent.process_image` (lines 203-267).  The abstract
`think`/`act`/`observe` steps and the adapter's `generate` are
arbitrary fallible functions (`Except String` carries `str(e)` of a
raised exception); `long_term`/`episodic`/`semantic` memory, response
`metadata`/`raw_response`/timestamps and the retry stabilizer are not
read by any claim and are omitted.
-/

/-- Structure `AgentMemory`, short-term part (base_agent.py lines 37-52).
`add_to_short_term` trims to the *last* `max_short_term_size` entries via
`self.short_term[-self.max_short_term_size:]`; a Python `[-0:]` slice is
the whole list, hence the zero-capacity special case. -/
structure AgentMemory where
  short_term : List Message
  max_short_term_size : Nat := 50
deriving DecidableEq, Repr

/-- Method `AgentMemory.add_to_short_term` (lines 47-52). -/
def AgentMemory.addToShortTerm (m : AgentMemory) (msg : Message) : AgentMemory :=
  let st := m.short_term ++ [msg]
  { m with short_term :=
      if st.length > m.max_short_term_size then
        if m.max_short_term_size = 0 then st
        else st.drop (st.length - m.max_short_term_size)
      else st }

/-- Method `AgentMemory.get_context` (lines 63-65):
`self.short_term[-max_messages:] if self.short_term else []`. -/
def AgentMemory.getContext (m : AgentMemory) (maxMessages : Nat := 10) : List Message :=
  if m.short_term = [] then []
  else if maxMessages = 0 then m.short_term
  else m.short_term.drop (m.short_term.length - maxMessages)

/-- Structure `AgentConfig` (lines 68-87), reduced to the fields the
claims read. -/
structure AgentConfig where
  name : String
  model_provider : String := "openai"
  system_prompt : Option String := none
  enable_memory : Bool := true
  enable_recursive_closure : Bool := true
deriving DecidableEq, Repr

/-- Mutable state of a `BaseAgent` instance relevant to the claims;
`className` renders `self.__class__.__name__`. -/
structure Agent where
  id : String
  className : String
  config : AgentConfig
  state : String
  memory : Option AgentMemory
  conversation_history : List Message
  closure_ledger : Option (List RecursiveLoop)
deriving DecidableEq, Repr

/-- Input of `run`: a plain string or some non-string (dict-like) value
whose payload the bookkeeping of `run` never inspects. -/
inductive AgentInput where
  | str (s : String)
  | dict
deriving DecidableEq, Repr

/-- Python `type(input_data).__name__` for the two modelled input kinds. -/
def AgentInput.typeName : AgentInput → String
  | .str _ => "str"
  | .dict => "dict"

/-- Python `action.get("type", "action")` on a string-valued dict
(the only key `run`'s bookkeeping reads). -/
def actionGet (action : List (String × String)) (key dflt : String) : String :=
  (action.lookup key).getD dflt

/-- Method `BaseAgent._maybe_log_loop_closure` (lines 265-299): maps the
cycle onto a closure tuple and logs it through the ledger.  Its own
internal failures are impossible in the model (every step is total),
matching the `try/except: pass` wrapper around the call site. -/
def maybeLogLoopClosure (a : Agent) (input : AgentInput) (thought : String)
    (action : List (String × String)) (observation : String)
    (now : PyDateTime) : Agent :=
  match a.closure_ledger with
  | none => a
  | some rows =>
    let hypothesis :=
      if pyStrip thought != "" then thought else "Agent reasoning produced a hypothesis"
    let pattern :=
      "Action=" ++ actionGet action "type" "action" ++ "; Provider=" ++ a.config.model_provider
    let structureUsed := a.className ++ "::think->act->observe"
    let explanation :=
      "Closed loop for input of type " ++ input.typeName ++
        " with observation length " ++ toString observation.length ++ "."
    let topic := if a.config.name = "" then a.className else a.config.name
    let newRows := (detectAndLogClosure rows (PyVal.str hypothesis) (PyVal.str pattern)
      (PyVal.str structureUsed) explanation topic now).2
    { a with closure_ledger := some newRows }

/-- Context pulled from memory at the start of `run` (lines 214-216);
`None` (memory disabled) is passed to `think` as an empty context. -/
def agentRunContext (a : Agent) : List Message :=
  match a.memory with
  | some m => m.getContext 10
  | none => []

/-- Error result of `run`'s `except` clause (lines 254-262). -/
def runErrorPair (a : Agent) (e : String) : Agent × AgentResponse :=
  ({ a with state := "error" },
   { agent_id := a.id, agent_name := a.config.name
   , content := "An error occurred while processing your request."
   , state := "error", error := some e })

/-- Method `BaseAgent.run` (lines 199-262).  `now` is the instant used
for the closure-ledger timestamp; the response `metadata`
(thought/action) is omitted. -/
def runAgent (a : Agent)
    (think : AgentInput → List Message → Except String String)
    (act : String → Except String (List (String × String)))
    (observe : List (String × String) → Except String String)
    (input : AgentInput) (now : PyDateTime) : Agent × AgentResponse :=
  let a1 := { a with state := "thinking" }
  match think input (agentRunContext a1) with
  | .error e => runErrorPair a1 e
  | .ok thought =>
    let a2 := { a1 with state := "executing" }
    match act thought with
    | .error e => runErrorPair a2 e
    | .ok action =>
      match observe action with
      | .error e => runErrorPair a2 e
      | .ok observation =>
        let a3 := maybeLogLoopClosure a2 input thought action observation now
        let a4 :=
          match a3.memory, input with
          | some m, .str st =>
            { a3 with memory := some ((m.addToShortTerm ⟨.user, st⟩).addToShortTerm
                ⟨.assistant, observation⟩) }
          | _, _ => a3
        let a5 := { a4 with state := "completed" }
        (a5, { agent_id := a.id, agent_name := a.config.name
             , content := observation, state := "completed" })

/-- First exception text of the think → act → observe pipeline, if any
(specification-side view of which step of `run` raises). -/
def cycleFirstFailure
    (think : AgentInput → List Message → Except String String)
    (act : String → Except String (List (String × String)))
    (observe : List (String × String) → Except String String)
    (input : AgentInput) (context : List Message) : Option String :=
  match think input context with
  | .error e => some e
  | .ok thought =>
    match act thought with
    | .error e => some e
    | .ok action =>
      match observe action with
      | .error e => some e
      | .ok _ => none

/-- Messages contributed by the configured system prompt in `chat`
(lines 336-338): present iff the prompt is a truthy (non-empty) string. -/
def sysPromptPart (sp : Option String) : List Message :=
  match sp with
  | some s => if s ≠ "" then [⟨.system, s⟩] else []
  | none => []

/-- Message list assembled by `chat` (lines 336-345): system prompt,
then memory context when memory is enabled, else the last 10
conversation-history entries. -/
def chatMessages (sp : Option String) (memory : Option AgentMemory)
    (history : List Message) : List Message :=
  sysPromptPart sp ++
    (match memory with
     | some m => m.getContext 10
     | none => history.drop (history.length - 10))

/-- Method `BaseAgent.chat` (lines 317-383).  The adapter call
`generate(messages, temperature, max_tokens)` is the oracle `gen`
applied to the assembled message list (temperature/max-tokens are
configuration constants that no claim reads). -/
def chatAgent (a : Agent) (gen : List Message → Except String LLMResponse)
    (message : String) : Agent × AgentResponse :=
  let a1 := { a with state := "thinking" }
  let userMsg : Message := ⟨.user, message⟩
  let a2 := { a1 with conversation_history := a1.conversation_history ++ [userMsg] }
  match gen (chatMessages a2.config.system_prompt a2.memory a2.conversation_history) with
  | .error e =>
    ({ a2 with state := "error" },
     { agent_id := a.id, agent_name := a.config.name
     , content := "Error: " ++ e, state := "error", error := some e })
  | .ok resp =>
    let assistantMsg : Message := ⟨.assistant, resp.content⟩
    let a3 := { a2 with conversation_history := a2.conversation_history ++ [assistantMsg] }
    let a4 :=
      match a3.memory with
      | some m => { a3 with memory := some ((m.addToShortTerm userMsg).addToShortTerm
          assistantMsg) }
      | none => a3
    let a5 := { a4 with state := "completed" }
    (a5, { agent_id := a.id, agent_name := a.config.name
         , content := resp.content, state := "completed", usage := some resp.usage })

/-- State of an older-tree `MultimodalAgent` instance relevant to C10;
`vision_enabled` is the conjunction `config.enable_vision and
llm_client.supports_vision` computed in `__init__` (multimodal_agent.py
line 63). -/
structure MultimodalAgent where
  id : String
  config : AgentConfig
  vision_enabled : Bool
  memory : Option AgentMemory
  conversation_history : List Message
deriving DecidableEq, Repr

/-- Method `MultimodalAgent.process_image` (multimodal_agent.py
lines 203-267).  `gen` is the adapter's `generate(messages, image=...)`
call; the response `metadata` (`modality`/`prompt`) is omitted. -/
def processImage {I : Type} (a : MultimodalAgent)
    (gen : List Message → I → Except String LLMResponse)
    (image : I) (prompt : String) : MultimodalAgent × AgentResponse :=
  if a.vision_enabled = false then
    (a, { agent_id := a.id, agent_name := a.config.name
        , content := "Vision processing is not enabled for this agent or model."
        , state := "error", error := some "Vision not supported" })
  else
    match gen [⟨.user, prompt⟩] image with
    | .error e =>
      (a, { agent_id := a.id, agent_name := a.config.name
          , content := "Error processing image: " ++ e
          , state := "error", error := some e })
    | .ok resp =>
      let a2 :=
        match a.memory with
        | some m => { a with memory := some ((m.addToShortTerm ⟨.user, prompt⟩).addToShortTerm
            ⟨.assistant, resp.content⟩) }
        | none => a
      (a2, { agent_id := a.id, agent_name := a.config.name
           , content := resp.content, usage := some resp.usage })


/-! ## Application settings and HTTP layer (C1, C2) and grounding (C8)

From `config/config.py` (`Settings`, lines 10-153), `src/main.py`
(`security_middleware`, lines 97-158; the `process_image` endpoint,
lines 479-521) and `src/utils/grounding.py` (lines 18-66).  Python
string methods used there (`lower`, `endswith`, `split`, slicing) are
modelled character-wise so that every definition is kernel-executable.
-/

/-- Python `str.lower()` (ASCII case folding suffices for the inputs here). -/
def pyLower (s : String) : String := String.mk (s.data.map Char.toLower)

/-- Python `str.endswith(suffix)`. -/
def pyEndsWith (s suffix : String) : Bool := suffix.data.isSuffixOf s.data

/-- Split of a character list at commas (`str.split(",")`). -/
def splitOnComma : List Char → List (List Char)
  | [] => [[]]
  | c :: rest =>
    match splitOnComma rest with
    | [] => [[c]]
    | h :: t => if c = ',' then [] :: h :: t else (c :: h) :: t

/-- Python `s.split(",")`. -/
def pySplitComma (s : String) : List String := (splitOnComma s.data).map String.mk

/-- Python slicing `s[:n]`. -/
def pyTake (s : String) (n : Nat) : String := String.mk (s.data.take n)

/-- Subset of `Settings` (config/config.py lines 10-153) read by the
claims, with the source's defaults.  The two final fields are
`Modelled from the spec:` the authoritative tree's configuration module
is not among the provided sources — `config/config.py` as provided lacks
`redis_url` and `ethics_framework_path` although `main.py` and
`grounding.py` read them (and `main.py` reads `allowed_origins` at import
time, so the provided file cannot be the one the application runs with).
Per §3/§6 of the specification they are an *optional* external
rate-limit backend address and an *optional* ethics/grounding document
directory path, both absent by default. -/
structure AppSettings where
  rate_limit_enabled : Bool := true
  rate_limit_requests : Nat := 100
  rate_limit_period : Nat := 60
  max_file_size_mb : Nat := 10
  allowed_image_types : String := "jpg,jpeg,png,gif,bmp,webp"
  redis_url : Option String := none
  ethics_framework_path : String := ""
deriving DecidableEq, Repr

/-- Property `Settings.max_file_size_bytes` (config.py lines 93-96). -/
def AppSettings.max_file_size_bytes (s : AppSettings) : Nat :=
  s.max_file_size_mb * 1024 * 1024

/-- Property `Settings.allowed_image_extensions` (config.py lines 83-86):
`[f".{ext.strip()}" for ext in self.allowed_image_types.split(",")]`. -/
def AppSettings.allowed_image_extensions (s : AppSettings) : List String :=
  (pySplitComma s.allowed_image_types).map fun ext => "." ++ pyStrip ext

/-- Module globals `_rate_window_starts_at` / `_rate_counts`
(main.py lines 98-99); the counter dict is an association list. -/
structure RateState where
  windowStartsAt : Rat
  counts : List (String × Nat)
deriving DecidableEq, Repr

/-- Read of `_rate_counts[key]` (`defaultdict(int)`: absent means 0). -/
def countsGet (counts : List (String × Nat)) (k : String) : Nat :=
  (counts.lookup k).getD 0

/-- Increment `_rate_counts[key] += 1`. -/
def countsIncr (counts : List (String × Nat)) (k : String) : List (String × Nat) :=
  match counts with
  | [] => [(k, 1)]
  | (k', v) :: rest => if k' = k then (k', v + 1) :: rest else (k', v) :: countsIncr rest k

/-- Outcome of `security_middleware` for one request. -/
inductive MwOutcome where
  | payloadTooLarge
  | rateLimited
  | forwarded
deriving DecidableEq, Repr

/-- Middleware `security_middleware` (main.py lines 102-158) for one
request.  `contentLength` is the parsed Content-Length header (0 when
absent or unparsable), `now` is `time.time()`, `key` the client address.
The Redis branch (lines 120-132) drives an external counter whose state
lives outside this model; every claim below assumes `redis_url = none`,
i.e. the in-process fallback of lines 133-146.  Limiter exceptions are
swallowed (`limited = False`, lines 147-149); the modelled fallback is
total, so that branch is unreachable here. -/
def securityMiddleware (st : AppSettings) (contentLength : Nat) (now : Rat)
    (key : String) (s : RateState) : MwOutcome × RateState :=
  if contentLength ≠ 0 ∧ contentLength > st.max_file_size_bytes then
    (.payloadTooLarge, s)
  else if st.rate_limit_enabled then
    match st.redis_url with
    | some _ => (.forwarded, s)
    | none =>
      let s1 := if now - s.windowStartsAt > (st.rate_limit_period : Rat)
        then { windowStartsAt := now, counts := [] } else s
      let c := countsGet s1.counts key + 1
      let s2 : RateState := { s1 with counts := countsIncr s1.counts key }
      if c > st.rate_limit_requests then (.rateLimited, s2) else (.forwarded, s2)
  else (.forwarded, s)

/-- Sequential processing of bodyless (GET-like) requests through the
middleware, threading the limiter state. -/
def processRequests (st : AppSettings) : RateState → List (Rat × String)
    → List MwOutcome × RateState
  | s, [] => ([], s)
  | s, (t, k) :: rest =>
    let step := securityMiddleware st 0 t k s
    let tail := processRequests st step.2 rest
    (step.1 :: tail.1, tail.2)

/-- Outcome of an HTTP endpoint call. -/
inductive HttpOutcome where
  | ok (r : AgentResponse)
  | err (statusCode : Nat) (detail : String)
deriving DecidableEq, Repr

/-- Content-type validation of the `process_image` endpoint (main.py
lines 502-504): runs only for a truthy `content_type`, and rejects when
it ends with none of the comma-separated allowed type suffixes. -/
def imageContentTypeInvalid (st : AppSettings) (contentType : Option String) : Bool :=
  match contentType with
  | some ct =>
    ct != "" && !(pySplitComma st.allowed_image_types).any fun ext => pyEndsWith ct (pyStrip ext)
  | none => false

/-- Filename-extension validation of the `process_image` endpoint
(main.py lines 505-506). -/
def imageFilenameInvalid (st : AppSettings) (filename : Option String) : Bool :=
  match filename with
  | some f =>
    f != "" && !st.allowed_image_extensions.any fun ext => pyEndsWith (pyLower f) ext
  | none => false

/-- Body of the `try` block of the `process_image` endpoint (main.py
lines 500-515); an `Except.error (code, detail)` is an `HTTPException`
raised inside the block.  The agent's own `process_image` never raises
(it converts exceptions to error responses — C10), so the delegation
step is always `ok agentResult`. -/
def processImageTryBlock (st : AppSettings) (contentType filename : Option String)
    (bodyLen : Nat) (agentResult : AgentResponse) : Except (Nat × String) AgentResponse :=
  if imageContentTypeInvalid st contentType then
    .error (400, "Unsupported image content type")
  else if imageFilenameInvalid st filename then
    .error (400, "Unsupported image file extension")
  else if bodyLen > st.max_file_size_bytes then
    .error (413, "Image too large")
  else
    .ok agentResult

/-- Endpoint `process_image` (main.py lines 479-521).  The 404/400
agent checks (lines 486-498) precede the `try` block and surface as
raised; but every `HTTPException` raised *inside* the `try` block —
including the 400/413 validation failures — is an `Exception` and is
caught by the blanket `except Exception` of lines 517-521, which
re-raises it as a 500 whose detail embeds
`str(e) = f"{status_code}: {detail}"` (Starlette `HTTPException.__str__`). -/
def processImageEndpoint (st : AppSettings) (agentFound hasProcessImage : Bool)
    (contentType filename : Option String) (bodyLen : Nat)
    (agentResult : AgentResponse) : HttpOutcome :=
  if agentFound = false then .err 404 "Agent not found"
  else if hasProcessImage = false then
    .err 400 "This agent does not support image processing"
  else
    match processImageTryBlock st contentType filename bodyLen agentResult with
    | .ok r => .ok r
    | .error (code, detail) =>
      .err 500 ("Image processing failed: " ++ toString code ++ ": " ++ detail)

/-- One entry found by `Path(base).glob("**/*")` in the grounding
directory (grounding.py lines 31-49): a text-like file with its
lowercased suffix and the result of `read_text` (`Except.error` = an
`OSError`-like read failure), a PDF with the result of constructing a
reader and per-page extraction results, or anything else (directories,
other suffixes). -/
inductive GroundFile where
  | textLike (name : String) (suffix : String) (readResult : Except Unit String)
  | pdf (name : String) (reader : Except Unit (List (Except Unit String)))
  | other (name : String)

/-- View of the configured grounding directory. -/
structure GroundFS where
  dirOk : Bool
  pdfReaderAvailable : Bool
  files : List GroundFile

/-- Contribution of one file to the results dict: `none` when the file
is skipped (wrong suffix, read failure, unavailable/failed PDF reader);
pages beyond the first 50 are dropped and failing pages individually
skipped. -/
def groundFileEntry (pdfAvail : Bool) : GroundFile → Option (String × String)
  | .textLike name suffix r =>
    if suffix = ".md" ∨ suffix = ".txt" ∨ suffix = ".json" then
      match r with
      | .ok content => some (name, content)
      | .error _ => none
    else none
  | .pdf name reader =>
    if pdfAvail then
      match reader with
      | .ok pages =>
        some (name, String.intercalate "\n" ((pages.take 50).filterMap fun p =>
          match p with
          | .ok t => some t
          | .error _ => none))
      | .error _ => none
    else none
  | .other _ => none

/-- Insert-or-overwrite into the results dict (`results[name] = content`). -/
def dictUpsert (m : List (String × String)) (k v : String) : List (String × String) :=
  match m with
  | [] => [(k, v)]
  | (k', v') :: rest => if k' = k then (k', v) :: rest else (k', v') :: dictUpsert rest k v

/-- Function `load_grounding_documents` (grounding.py lines 18-52).
`base` is `settings.ethics_framework_path`.  All failure modes return
the (possibly empty) results collected so far instead of raising. -/
def loadGroundingDocuments (base : String) (fs : GroundFS) : List (String × String) :=
  if pyStrip base = "" then []
  else if fs.dirOk = false then []
  else
    fs.files.foldl
      (fun acc f =>
        match groundFileEntry fs.pdfReaderAvailable f with
        | some (k, v) => dictUpsert acc k v
        | none => acc)
      []

/-- Part-accumulation loop of `get_grounding_summary` (lines 60-64):
each document contributes a `## name` header block; the loop stops
after the part that overflows the character budget. -/
def summaryPartsGo (maxChars : Nat) (acc : List String) :
    List (String × String) → List String
  | [] => acc.reverse
  | (name, content) :: rest =>
    let part := "## " ++ name ++ "\n" ++ content ++ "\n"
    let acc2 := part :: acc
    if (acc2.map String.length).sum > maxChars then acc2.reverse
    else summaryPartsGo maxChars acc2 rest

/-- Function `get_grounding_summary` (grounding.py lines 55-66):
documents sorted by filename, accumulated under the character budget,
joined with blank lines and truncated to `max_chars`. -/
def getGroundingSummary (base : String) (fs : GroundFS) (maxChars : Nat := 4000) : String :=
  let docs := loadGroundingDocuments base fs
  if docs = [] then ""
  else
    let sortedDocs := docs.mergeSort fun a b =>
      decide (a.1 < b.1) || (decide (a.1 = b.1) && decide (a.2 ≤ b.2))
    pyTake (String.intercalate "\n" (summaryPartsGo maxChars [] sortedDocs)) maxChars

end MAB

namespace MAB

/-! # Theorems -/

/-- Helper: `digitVal` inverts `digitChar` on single digits. -/
theorem digitVal_digitChar (n : Nat) (h : n ≤ 9) : digitVal (digitChar n) = n := by
  interval_cases n <;> rfl

/-- Helper: `digitChar` always yields a digit character. -/
theorem isDigitChar_digitChar (n : Nat) : isDigitChar (digitChar n) = true := by
  match n with
  | 0 | 1 | 2 | 3 | 4 | 5 | 6 | 7 | 8 => rfl
  | _ + 9 => rfl

/-- Helper: `isoformat` of an in-range instant passes the ISO-8601 check. -/
theorem isValidIso8601_isoformat (d : PyDateTime) (hd : d.valid) :
    isValidIso8601 d.isoformat = true := by
  obtain ⟨hy1, hy2, hm1, hm2, hd1, hd2, hh, hn, hs, hus⟩ := hd
  have e2 : ∀ x : Nat, x ≤ 99 → 10 * digitVal (digitChar (x / 10)) + digitVal (digitChar (x % 10)) = x := by
    intro x hx
    rw [digitVal_digitChar _ (by omega), digitVal_digitChar _ (by omega)]
    omega
  by_cases hz : d.microsecond = 0 <;>
  · simp only [PyDateTime.isoformat, PyDateTime.isoformatChars, pad4, pad2, pad6, hz,
      if_true, if_false, List.cons_append, List.nil_append, isValidIso8601,
      isoFracOk, List.all_cons, List.all_nil, List.isEmpty, Bool.and_eq_true,
      beq_iff_eq, decide_eq_true_eq, Bool.not_eq_eq_eq_not, Bool.not_false,
      true_and, and_true,
      isDigitChar_digitChar, e2 d.month (by omega), e2 d.day (by omega),
      e2 d.hour (by omega), e2 d.minute (by omega), e2 d.second (by omega)]
    omega


/-- C7, counterexample: for the unknown model name `"not-a-real-model"`
the adapter reports function calling *disabled*, contradicting the
claim's "functions enabled" for models absent from the table. -/
theorem c7_counterexample :
    geminiLookupCaps "not-a-real-model" = none ∧
    geminiSupportsFunctions "not-a-real-model" = false := by
  constructor <;> rfl

/-- C7 (amended): for every model name absent from the Gemini adapter's
capability table, the capability probes report vision disabled,
functions **disabled**, streaming enabled, and a maximum context length
of 32768 tokens (the probes are total functions, so they never raise). -/
theorem c7_gemini_unknown_model_caps (model : String)
    (h : geminiLookupCaps model = none) :
    geminiSupportsVision model = false ∧
    geminiSupportsFunctions model = false ∧
    geminiSupportsStreaming model = true ∧
    geminiMaxContextLength model = 32768 := by
  simp [geminiSupportsVision, geminiSupportsFunctions,
    geminiSupportsStreaming, geminiMaxContextLength, h]

/-- C7 witness: the amended theorem applied at the concrete unknown
model name `"weird-model-name"`. -/
theorem c7_gemini_unknown_model_caps_witness :
    geminiSupportsVision "weird-model-name" = false ∧
    geminiSupportsFunctions "weird-model-name" = false ∧
    geminiSupportsStreaming "weird-model-name" = true ∧
    geminiMaxContextLength "weird-model-name" = 32768 :=
  c7_gemini_unknown_model_caps "weird-model-name" (by rfl)

/-- Helper: the Boolean acceptance test of `detect_closure` holds exactly when
all three arguments are strings that are non-empty after trimming. -/
theorem detectClosureValid_iff (hyp pat st : PyVal) :
    detectClosureValid hyp pat st = true ↔
      (∃ hs, hyp = PyVal.str hs ∧ pyStrip hs ≠ "") ∧
      (∃ ps, pat = PyVal.str ps ∧ pyStrip ps ≠ "") ∧
      (∃ ss, st = PyVal.str ss ∧ pyStrip ss ≠ "") := by
  cases hyp <;> cases pat <;> cases st <;>
    simp [detectClosureValid, bne_iff_ne]

/-- C4: `detect_and_log_closure` returns `False` and appends no row when any
of hypothesis/pattern/structure is not a string or is blank after trimming;
when all three are non-blank strings it returns `True` and appends exactly
one row whose loop id is `RL-` followed by the 1-based row count zero-padded
to 3 digits (`f"{len+1:03d}"`), and whose `Timestamp` passes the ISO-8601
validity check. -/
theorem c4_detect_and_log_closure_spec (rows : List RecursiveLoop)
    (hyp pat st : PyVal) (explanation topic : String) (now : PyDateTime)
    (hnow : now.valid) :
    (¬ ((∃ hs, hyp = PyVal.str hs ∧ pyStrip hs ≠ "") ∧
        (∃ ps, pat = PyVal.str ps ∧ pyStrip ps ≠ "") ∧
        (∃ ss, st = PyVal.str ss ∧ pyStrip ss ≠ "")) →
      detectAndLogClosure rows hyp pat st explanation topic now = (false, rows)) ∧
    (∀ hs ps ss, hyp = PyVal.str hs → pat = PyVal.str ps → st = PyVal.str ss →
      pyStrip hs ≠ "" → pyStrip ps ≠ "" → pyStrip ss ≠ "" →
      ∃ row,
        detectAndLogClosure rows hyp pat st explanation topic now
          = (true, rows ++ [row]) ∧
        row.loop_id = "RL-" ++ format03 (rows.length + 1) ∧
        row.hypothesis = hs ∧ row.pattern = ps ∧ row.struct = ss ∧
        row.why_closed = explanation ∧
        isValidIso8601 row.timestamp = true) := by
  constructor
  · intro hno
    have hvb : detectClosureValid hyp pat st = false := by
      cases hvb : detectClosureValid hyp pat st
      · rfl
      · exact absurd ((detectClosureValid_iff hyp pat st).1 hvb) hno
    simp [detectAndLogClosure, hvb]
  · intro hs ps ss hh hp hst h1 h2 h3
    subst hh; subst hp; subst hst
    have hvb : detectClosureValid (PyVal.str hs) (PyVal.str ps) (PyVal.str ss) = true :=
      (detectClosureValid_iff _ _ _).2 ⟨⟨hs, rfl, h1⟩, ⟨ps, rfl, h2⟩, ⟨ss, rfl, h3⟩⟩
    unfold detectAndLogClosure
    rw [if_pos hvb]
    exact ⟨_, rfl, rfl, rfl, rfl, rfl, rfl, isValidIso8601_isoformat now hnow⟩

/-- C4 witness: the theorem applied to a fresh ledger and the concrete
closure `("h1", "p1", "s1", "done", "t")` at a concrete instant; the
appended row receives loop id `RL-001`. -/
theorem c4_detect_and_log_closure_spec_witness :
    (⟨2024, 5, 17, 12, 30, 45, 123456⟩ : PyDateTime).valid ∧
    ∃ row,
      detectAndLogClosure ([] : List RecursiveLoop) (PyVal.str "h1") (PyVal.str "p1")
          (PyVal.str "s1") "done" "t" ⟨2024, 5, 17, 12, 30, 45, 123456⟩
          = (true, ([] : List RecursiveLoop) ++ [row]) ∧
      row.loop_id = "RL-" ++ format03 (List.length ([] : List RecursiveLoop) + 1) ∧
      row.hypothesis = "h1" ∧ row.pattern = "p1" ∧ row.struct = "s1" ∧
      row.why_closed = "done" ∧
      isValidIso8601 row.timestamp = true :=
  ⟨by decide,
    (c4_detect_and_log_closure_spec ([] : List RecursiveLoop) _ _ _ "done" "t" _
        (by decide)).2
      "h1" "p1" "s1" rfl rfl rfl (by decide) (by decide) (by decide)⟩

/-- Helper: strings are their character lists. -/
theorem string_mk_data (s : String) : String.mk s.data = s := rfl

/-- Helper: quote doubling never shortens a field. -/
theorem length_le_csvEscapeChars (l : List Char) : l.length ≤ (csvEscapeChars l).length := by
  induction l with
  | nil => simp [csvEscapeChars]
  | cons c cs ih =>
    by_cases h : c = '"' <;> simp [csvEscapeChars, h] <;> omega

/-- Helper: the quoted-field scanner inverts quote-doubling encoding when
the remainder does not begin with a quote. -/
theorem csvScanQuoted_spec (f : List Char) :
    ∀ (fuel : Nat) (rest acc : List Char), f.length + 1 ≤ fuel →
      (∀ cs', rest ≠ '"' :: cs') →
      csvScanQuoted fuel (csvEscapeChars f ++ '"' :: rest) acc
        = (acc.reverse ++ f, rest) := by
  induction f with
  | nil =>
    intro fuel rest acc hfuel hrest
    match fuel, hfuel with
    | fuel + 1, _ =>
      cases rest with
      | nil => simp [csvEscapeChars, csvScanQuoted]
      | cons r rs =>
        have hr : ¬ r = '"' := fun h => hrest rs (by rw [h])
        simp [csvEscapeChars, csvScanQuoted, hr]
  | cons c f' ih =>
    intro fuel rest acc hfuel hrest
    match fuel, hfuel with
    | fuel + 1, hf =>
      have hf' : f'.length + 1 ≤ fuel := by
        simp only [List.length_cons] at hf; omega
      by_cases hc : c = '"'
      · subst hc
        simp only [csvEscapeChars, if_pos rfl, List.cons_append, csvScanQuoted,
          List.append_eq, if_true]
        rw [ih fuel rest ('"' :: acc) hf' hrest]
        simp
      · simp only [csvEscapeChars, List.cons_append, csvScanQuoted, List.append_eq,
          hc, if_false, ite_false, if_neg hc]
        rw [ih fuel rest (c :: acc) hf' hrest]
        simp


/-- Helper: the unquoted-field scanner returns a special-character-free
field unchanged and stops at the separator. -/
theorem csvScanUnquoted_spec (f : List Char)
    (hf : ∀ c ∈ f, ¬(c = ',' ∨ c = '\n' ∨ c = '\r')) :
    ∀ rest : List Char,
      (rest = [] ∨ ∃ c cs', rest = c :: cs' ∧ (c = ',' ∨ c = '\n' ∨ c = '\r')) →
      csvScanUnquoted (f ++ rest) = (f, rest) := by
  induction f with
  | nil =>
    intro rest hrest
    rcases hrest with h | ⟨c, cs', rfl, hsep⟩
    · subst h; simp [csvScanUnquoted]
    · simp [csvScanUnquoted, if_pos hsep]
  | cons c f' ih =>
    intro rest hrest
    have hc : ¬(c = ',' ∨ c = '\n' ∨ c = '\r') := hf c (by simp)
    simp only [List.cons_append, csvScanUnquoted, if_neg hc, List.append_eq]
    rw [ih (fun d hd => hf d (List.mem_cons_of_mem _ hd)) rest hrest]

/-- Helper: a field that needs no quoting contains no separator, line
break or quote character. -/
theorem csvNeedsQuoting_false (s : String) (h : csvNeedsQuoting s = false) :
    ∀ c ∈ s.data, ¬(c = ',' ∨ c = '\n' ∨ c = '\r') ∧ ¬(c = '"') := by
  intro c hc
  have := (List.any_eq_false.1 h) c hc
  simp only [Bool.not_eq_true, Bool.or_eq_false_iff, beq_eq_false_iff_ne, ne_eq] at this
  tauto

/-- Helper: scanning an encoded field returns it verbatim. -/
theorem csvScanField_spec (s : String) (rest : List Char)
    (hrest : rest = [] ∨ ∃ c cs', rest = c :: cs' ∧ (c = ',' ∨ c = '\n')) :
    csvScanField (csvEncodeField s ++ rest) = (s.data, rest) := by
  have hrest3 : rest = [] ∨ ∃ c cs', rest = c :: cs' ∧ (c = ',' ∨ c = '\n' ∨ c = '\r') := by
    rcases hrest with h | ⟨c, cs', rfl, h⟩
    · exact Or.inl h
    · exact Or.inr ⟨c, cs', rfl, by tauto⟩
  cases hq : csvNeedsQuoting s with
  | true =>
    have hnq : ∀ cs', rest ≠ '"' :: cs' := by
      rcases hrest with h | ⟨c, cs', rfl, hc⟩
      · subst h; intro cs' hh; exact List.noConfusion hh
      · intro cs'' hh
        have hcq : c = '"' := (List.cons.injEq _ _ _ _ ▸ hh).1
        rcases hc with h1 | h1 <;> simp [h1] at hcq
    have hlen : s.data.length + 1 ≤ (csvEscapeChars s.data ++ '"' :: rest).length := by
      have := length_le_csvEscapeChars s.data
      simp only [List.length_append, List.length_cons]
      omega
    have henc : csvEncodeField s = '"' :: (csvEscapeChars s.data ++ ['"']) := by
      simp [csvEncodeField, hq]
    rw [henc]
    simp only [List.cons_append, List.append_assoc, List.singleton_append,
      List.nil_append, csvScanField, if_pos rfl, if_true]
    rw [csvScanQuoted_spec s.data _ rest [] hlen hnq]
    simp
  | false =>
    have hall := csvNeedsQuoting_false s hq
    have henc : csvEncodeField s = s.data := by
      simp [csvEncodeField, hq]
    rw [henc]
    cases hd : s.data with
    | nil =>
      simp only [List.nil_append]
      rcases hrest3 with h | ⟨c, cs', rfl, hsep⟩
      · subst h; simp [csvScanField]
      · have hc : ¬ c = '"' := by rcases hsep with h1 | h1 | h1 <;> simp [h1]
        simp only [csvScanField, if_neg hc]
        have h2 := csvScanUnquoted_spec [] (by simp) (c :: cs')
          (Or.inr ⟨c, cs', rfl, hsep⟩)
        simpa using h2
    | cons c ds =>
      have hc : ¬(c = ',' ∨ c = '\n' ∨ c = '\r') ∧ ¬(c = '"') := by
        have h3 := hall c; rw [hd] at h3; exact h3 (by simp)
      simp only [List.cons_append, csvScanField, if_neg hc.2]
      have h2 := csvScanUnquoted_spec (c :: ds)
        (by intro d hdm; have h4 := hall d; rw [hd] at h4; exact (h4 hdm).1) rest hrest3
      simpa using h2


/-- Helper: an encoded record has at least one character per field
beyond the first. -/
theorem length_le_csvEncodeRecord (fields : List String) :
    fields.length ≤ (csvEncodeRecord fields).length + 1 := by
  induction fields with
  | nil => simp [csvEncodeRecord]
  | cons f fs ih =>
    cases fs with
    | nil => simp [csvEncodeRecord]
    | cons f2 fs' =>
      simp only [csvEncodeRecord, List.length_append, List.length_cons] at *
      omega

/-- Helper: scanning an encoded record returns the original fields. -/
theorem csvScanRecord_spec (fields : List String) :
    ∀ (fuel : Nat) (tail : List Char), fields ≠ [] → fields.length ≤ fuel →
      csvScanRecord fuel (csvEncodeRecord fields ++ '\n' :: tail) = (fields, tail) := by
  induction fields with
  | nil => intro _ _ h; exact absurd rfl h
  | cons f fs ih =>
    intro fuel tail _ hfuel
    match fuel, hfuel with
    | fuel + 1, hf =>
      cases fs with
      | nil =>
        have hfield := csvScanField_spec f ('\n' :: tail)
          (Or.inr ⟨'\n', tail, rfl, Or.inr rfl⟩)
        simp only [csvEncodeRecord, csvScanRecord, hfield]
        simp [string_mk_data]
      | cons f2 fs' =>
        have harr : csvEncodeRecord (f :: f2 :: fs') ++ '\n' :: tail
            = csvEncodeField f ++ ',' :: (csvEncodeRecord (f2 :: fs') ++ '\n' :: tail) := by
          simp [csvEncodeRecord, List.append_assoc]
        rw [harr]
        have hfield := csvScanField_spec f (',' :: (csvEncodeRecord (f2 :: fs') ++ '\n' :: tail))
          (Or.inr ⟨',', _, rfl, Or.inl rfl⟩)
        simp only [csvScanRecord, hfield]
        rw [ih fuel tail (List.cons_ne_nil _ _) (by simp at hf ⊢; omega)]
        simp [string_mk_data]

/-- Helper: file encoding unfolds one record at a time. -/
theorem csvEncodeFile_cons (r : List String) (rs : List (List String)) :
    csvEncodeFile (r :: rs) = csvEncodeRecord r ++ '\n' :: csvEncodeFile rs := by
  simp [csvEncodeFile, List.append_assoc]

/-- Helper: scanning an encoded file returns the original records. -/
theorem csvScanRecords_spec (recs : List (List String)) :
    ∀ fuel, recs.length ≤ fuel → (∀ r ∈ recs, r ≠ [] ∧ r ≠ [""]) →
      csvScanRecords fuel (csvEncodeFile recs) = recs := by
  induction recs with
  | nil => intro fuel _ _; cases fuel <;> simp [csvScanRecords, csvEncodeFile]
  | cons r rs ih =>
    intro fuel hfuel hok
    match fuel, hfuel with
    | fuel + 1, hf =>
      rw [csvEncodeFile_cons]
      have hne : (csvEncodeRecord r ++ '\n' :: csvEncodeFile rs).isEmpty = false := by
        cases henc : csvEncodeRecord r <;> simp [henc]
      have hrec := csvScanRecord_spec r
        ((csvEncodeRecord r ++ '\n' :: csvEncodeFile rs).length + 1) (csvEncodeFile rs)
        (hok r (by simp)).1
        (by
          have := length_le_csvEncodeRecord r
          simp only [List.length_append, List.length_cons]
          omega)
      simp only [csvScanRecords, hne, Bool.false_eq_true, if_false, hrec]
      rw [if_neg (hok r (by simp)).2]
      rw [ih fuel (by simp at hf ⊢; omega) (fun x hx => hok x (List.mem_cons_of_mem _ hx))]
      cases henc : csvEncodeRecord r <;> simp


/-- Helper: an encoded file has at least one character per record. -/
theorem length_le_csvEncodeFile (recs : List (List String)) :
    recs.length ≤ (csvEncodeFile recs).length := by
  induction recs with
  | nil => simp [csvEncodeFile]
  | cons r rs ih =>
    rw [csvEncodeFile_cons]
    simp only [List.length_append, List.length_cons]
    omega

/-- Helper: CSV encode/parse round trip at the record level. -/
theorem csvParse_encodeFile (recs : List (List String))
    (hok : ∀ r ∈ recs, r ≠ [] ∧ r ≠ [""]) :
    csvParse (String.mk (csvEncodeFile recs)) = recs := by
  show csvScanRecords ((csvEncodeFile recs).length + 1) (csvEncodeFile recs) = recs
  exact csvScanRecords_spec recs _
    (by have := length_le_csvEncodeFile recs; omega) hok

/-- Helper: a column of CSV-stable values survives the pandas dtype
inference as an object column of unchanged strings. -/
theorem convertColumn_stable (vals : List String)
    (h : ∀ v ∈ vals, csvStable v = true) :
    convertColumn vals = vals.map CsvCell.str := by
  cases vals with
  | nil => simp [convertColumn]
  | cons v vs =>
    have hv := h v (by simp)
    simp only [csvStable, Bool.and_eq_true, Bool.not_eq_true'] at hv
    obtain ⟨⟨⟨hna, hint⟩, hfloat⟩, hbool⟩ := hv
    have hc1 : ((v :: vs).all fun x => isNaToken x || isIntToken x || isFloatToken x) = false := by
      simp [List.all_cons, hna, hint, hfloat]
    have hc2 : ((v :: vs).all isBoolToken) = false := by
      simp [List.all_cons, hbool]
    simp only [convertColumn, hc1, hc2, Bool.false_and, Bool.and_false,
      Bool.false_eq_true, if_false]
    apply List.map_congr_left
    intro x hx
    have hxna := h x hx
    simp only [csvStable, Bool.and_eq_true, Bool.not_eq_true'] at hxna
    simp [hxna.1.1.1]

/-- Helper: mapping a function over positional reads rebuilds the map. -/
theorem map_range_getD {α β : Type} (l : List α) (h : α → β) (d : α) :
    ((List.range l.length).map fun i => h (l.getD i d)) = l.map h := by
  induction l with
  | nil => simp
  | cons a t ih =>
    rw [List.length_cons, List.range_succ_eq_map, List.map_cons, List.map_map]
    have hc : ∀ i ∈ List.range t.length,
        ((fun i => h ((a :: t).getD i d)) ∘ Nat.succ) i = h (t.getD i d) := by
      intro i _; simp [Function.comp]
    rw [List.map_congr_left hc, ih]
    simp

/-- Helper: positional read through `List.map` at an in-range index. -/
theorem getD_map_of_lt {α β : Type} (l : List α) (g : α → β) (i : Nat)
    (hi : i < l.length) (d : β) (d' : α) :
    (l.map g).getD i d = g (l.getD i d') := by
  rw [List.getD_eq_getElem _ _ (by simpa using hi), List.getD_eq_getElem _ _ hi,
    List.getElem_map]

/-- Helper: `pd.read_csv` of a saved ledger of CSV-stable rows yields the
ledger DataFrame with every cell an unchanged string. -/
theorem readCsv_saveLedger (rows : List RecursiveLoop)
    (hst : ∀ l ∈ rows, l.stable = true) :
    readCsv (saveLedgerString rows)
      = some ⟨ledgerHeader, rows.map fun l => l.toFields.map CsvCell.str⟩ := by
  have hok : ∀ r ∈ ledgerHeader :: rows.map RecursiveLoop.toFields, r ≠ [] ∧ r ≠ [""] := by
    intro r hr
    rcases List.mem_cons.1 hr with h | h
    · subst h; constructor <;> simp [ledgerHeader]
    · obtain ⟨l, _, rfl⟩ := List.mem_map.1 h
      constructor <;> simp [RecursiveLoop.toFields]
  have hparse : csvParse (saveLedgerString rows)
      = ledgerHeader :: rows.map RecursiveLoop.toFields :=
    csvParse_encodeFile _ hok
  have hcols : ((List.range ledgerHeader.length).map fun j =>
        convertColumn ((rows.map RecursiveLoop.toFields).map fun r => r.getD j ""))
      = (List.range 7).map fun j =>
          (rows.map RecursiveLoop.toFields).map fun r => CsvCell.str (r.getD j "") := by
    apply List.map_congr_left
    intro j hj
    have hstable : ∀ v ∈ (rows.map RecursiveLoop.toFields).map (fun r => r.getD j ""),
        csvStable v = true := by
      intro v hv
      obtain ⟨r, hr, rfl⟩ := List.mem_map.1 hv
      obtain ⟨l, hl, rfl⟩ := List.mem_map.1 hr
      have hj7 : j < 7 := List.mem_range.1 hj
      have hmem : (RecursiveLoop.toFields l).getD j "" ∈ RecursiveLoop.toFields l := by
        rw [List.getD_eq_getElem _ _ (by simp [RecursiveLoop.toFields]; omega)]
        exact List.getElem_mem _
      exact (List.all_eq_true.1 (hst l hl)) _ hmem
    rw [convertColumn_stable _ hstable, List.map_map]
    simp [Function.comp]
  simp only [readCsv, hparse]
  rw [hcols]
  have hcells : ((List.range (rows.map RecursiveLoop.toFields).length).map fun i =>
        ((List.range 7).map fun j =>
          (rows.map RecursiveLoop.toFields).map fun r => CsvCell.str (r.getD j "")).map
            fun col => col.getD i CsvCell.nan)
      = rows.map fun l => l.toFields.map CsvCell.str := by
    rw [List.length_map]
    have hstep : ∀ i ∈ List.range rows.length,
        (((List.range 7).map fun j =>
            (rows.map RecursiveLoop.toFields).map fun r => CsvCell.str (r.getD j "")).map
              fun col => col.getD i CsvCell.nan)
          = (RecursiveLoop.toFields
              (rows.getD i ⟨"", "", "", "", "", "", ""⟩)).map CsvCell.str := by
      intro i hi
      have hi' : i < rows.length := List.mem_range.1 hi
      rw [List.map_map]
      have hpt : ∀ j ∈ List.range 7,
          ((fun col => col.getD i CsvCell.nan) ∘ fun j =>
            (rows.map RecursiveLoop.toFields).map fun r => CsvCell.str (r.getD j "")) j
            = CsvCell.str ((RecursiveLoop.toFields
                (rows.getD i ⟨"", "", "", "", "", "", ""⟩)).getD j "") := by
        intro j hj
        show ((rows.map RecursiveLoop.toFields).map fun r => CsvCell.str (r.getD j "")).getD i
            CsvCell.nan = _
        rw [getD_map_of_lt _ _ i (by simpa using hi') _
          (RecursiveLoop.toFields ⟨"", "", "", "", "", "", ""⟩)]
        rw [getD_map_of_lt _ _ i hi' _ ⟨"", "", "", "", "", "", ""⟩]
      rw [List.map_congr_left hpt]
      have h7 : (RecursiveLoop.toFields
          (rows.getD i ⟨"", "", "", "", "", "", ""⟩)).length = 7 := rfl
      rw [← h7]
      exact map_range_getD _ _ _
    rw [List.map_congr_left hstep]
    have := map_range_getD rows (fun l => l.toFields.map CsvCell.str)
      ⟨"", "", "", "", "", "", ""⟩
    exact this
  rw [hcells]


/-- Helper: `load_ledger` over the reconstructed DataFrame restores each
row's seven fields as strings. -/
theorem loadLedgerFromFrame_eval (rows : List RecursiveLoop) :
    loadLedgerFromFrame ⟨ledgerHeader, rows.map fun l => l.toFields.map CsvCell.str⟩
      = rows.map loopAsLoaded := by
  unfold loadLedgerFromFrame
  simp only [List.map_map]
  apply List.map_congr_left
  intro l _
  rfl

/-- C5 (amended): logging then re-hydrating a ledger through its backing
file is lossless for hypothesis/pattern/structure/explanation/topic (and
the other two columns) **provided** every stored field is a CSV-stable
string, i.e. one the pandas reader does not reinterpret: not a NA token
(in particular not the empty string), not an integer, float or boolean
literal.  An accepted closure can violate this only through its
explanation/topic fields (e.g. an empty explanation — see the
counterexample), since non-blank strings may still be numeric. -/
theorem c5_ledger_roundtrip (rows : List RecursiveLoop)
    (hst : ∀ l ∈ rows, l.stable = true) :
    loadLedgerString (saveLedgerString rows) = some (rows.map loopAsLoaded) := by
  unfold loadLedgerString
  rw [readCsv_saveLedger rows hst]
  simp only [Option.map_some']
  rw [loadLedgerFromFrame_eval]

/-- C5 witness: the amended theorem applied to a concrete two-row ledger;
both rows are CSV-stable and reload verbatim. -/
theorem c5_ledger_roundtrip_witness :
    (∀ l ∈ [(⟨"RL-001", "t1", "h1", "p1", "s1", "w1", "2024-05-17T12:30:45.123456"⟩ : RecursiveLoop),
            ⟨"RL-002", "t2", "h2", "p2", "s2", "w2", "2024-05-17T12:31:00.000001"⟩],
        RecursiveLoop.stable l = true) ∧
    loadLedgerString (saveLedgerString
        [⟨"RL-001", "t1", "h1", "p1", "s1", "w1", "2024-05-17T12:30:45.123456"⟩,
         ⟨"RL-002", "t2", "h2", "p2", "s2", "w2", "2024-05-17T12:31:00.000001"⟩])
      = some ([(⟨"RL-001", "t1", "h1", "p1", "s1", "w1", "2024-05-17T12:30:45.123456"⟩ : RecursiveLoop),
               ⟨"RL-002", "t2", "h2", "p2", "s2", "w2", "2024-05-17T12:31:00.000001"⟩].map loopAsLoaded) :=
  ⟨by decide, c5_ledger_roundtrip _ (by decide)⟩

/-- C5, counterexample: a closure accepted with an empty explanation
(`detect_and_log_closure` validates only hypothesis/pattern/structure)
re-hydrates with `why_closed = NaN`, not the logged empty string, so
save-then-load is not lossless as claimed. -/
theorem c5_counterexample :
    detectAndLogClosure [] (PyVal.str "h") (PyVal.str "p") (PyVal.str "s") "" "t"
        ⟨2024, 1, 2, 3, 4, 5, 0⟩
      = (true, [⟨"RL-001", "t", "h", "p", "s", "", "2024-01-02T03:04:05"⟩]) ∧
    loadLedgerString (saveLedgerString
        [⟨"RL-001", "t", "h", "p", "s", "", "2024-01-02T03:04:05"⟩])
      = some [⟨CsvCell.str "RL-001", CsvCell.str "t", CsvCell.str "h", CsvCell.str "p",
               CsvCell.str "s", CsvCell.nan, CsvCell.str "2024-01-02T03:04:05"⟩] ∧
    CsvCell.nan ≠ CsvCell.str "" := by
  refine ⟨by decide, by decide, by decide⟩

/-- C6, counterexample: on a ledger file whose table lacks the `Loop ID`
column (all six other required columns present), `scan_ledger` raises a
`KeyError` out of `df.duplicated(subset=["Loop ID"])` instead of
returning a `"warn"` report listing `Loop ID` under `missing_columns`,
so the claim fails for that required column. -/
theorem c6_counterexample :
    scanLedger (some ⟨["Topic", "Hypothesis", "Pattern", "Structure", "Why Closed", "Timestamp"],
        [[CsvCell.str "t", CsvCell.str "h", CsvCell.str "p", CsvCell.str "s",
          CsvCell.str "w", CsvCell.str "ts"]]⟩)
      = Except.error "KeyError: [Loop ID]" := by
  rfl

/-- Helper: a two-way string `ite` takes one of its two values. -/
theorem ite_ok_warn_cases (C : Prop) [Decidable C] :
    (if C then "ok" else "warn") = "ok" ∨ (if C then "ok" else "warn") = "warn" := by
  by_cases h : C <;> simp [h]

/-- Helper: a two-way string `ite` equals the first value iff the condition holds. -/
theorem ite_ok_warn_iff (C : Prop) [Decidable C] :
    (if C then "ok" else "warn") = "ok" ↔ C := by
  by_cases h : C <;> simp [h]

/-- Helper: the Boolean `"ok"` condition of `scan_ledger` in propositional form. -/
theorem guardian_cond_iff (df : DataFrame) (j : Nat) :
    (((guardianRequiredColumns.filter fun c => !df.columns.contains c).isEmpty &&
      !(df.cells.any fun r => r.any fun c => c == CsvCell.nan) &&
      (dupCount (df.cells.map fun r => r.getD j CsvCell.nan) == 0)) = true)
    ↔ (guardianRequiredColumns.filter (fun c => !df.columns.contains c) = [] ∧
       (df.cells.any fun row => row.any fun c => c == CsvCell.nan) = false ∧
       dupCount (df.cells.map fun row => row.getD j CsvCell.nan) = 0) := by
  rw [Bool.and_eq_true, Bool.and_eq_true]
  rw [List.isEmpty_iff, Bool.not_eq_true', beq_iff_eq, and_assoc]

/-- C6 (amended): `scan_ledger` on a missing file reports status
`"error"`; on a table that *does* carry a `Loop ID` column it returns a
report whose `missing_columns` lists exactly the absent required
columns, whose status is always `"ok"` or `"warn"`, and is `"ok"`
precisely when no required column is missing, no cell is `NaN`
("empty"), and no `Loop ID` value repeats; but on a table whose
`Loop ID` column itself is absent the method raises a `KeyError`
instead of reporting. -/
theorem c6_guardian_scan_ledger (file : Option DataFrame) :
    (file = none → scanLedger file
        = .ok (.missingFile "error" "No ledger found at path")) ∧
    (∀ df, file = some df → df.columns.findIdx? (fun c => c == "Loop ID") = none →
        scanLedger file = .error "KeyError: [Loop ID]") ∧
    (∀ df j, file = some df → df.columns.findIdx? (fun c => c == "Loop ID") = some j →
        ∃ r, scanLedger file = .ok (.report r) ∧
          r.missing_columns
            = guardianRequiredColumns.filter (fun c => !df.columns.contains c) ∧
          (r.status = "ok" ∨ r.status = "warn") ∧
          (r.status = "ok" ↔
            (guardianRequiredColumns.filter (fun c => !df.columns.contains c) = [] ∧
             (df.cells.any fun row => row.any fun c => c == CsvCell.nan) = false ∧
             dupCount (df.cells.map fun row => row.getD j CsvCell.nan) = 0))) := by
  refine ⟨?_, ?_, ?_⟩
  · intro h; subst h; rfl
  · intro df h hfind; subst h
    simp [scanLedger, hfind]
  · intro df j h hfind; subst h
    simp only [scanLedger, hfind]
    exact ⟨_, rfl, rfl, ite_ok_warn_cases _,
      (ite_ok_warn_iff _).trans (guardian_cond_iff df j)⟩

/-- C6 witness: the amended theorem applied to a one-row table carrying
all seven required columns (the `Loop ID` column at index 0). -/
theorem c6_guardian_scan_ledger_witness :
    ∃ r, scanLedger (some ⟨guardianRequiredColumns,
        [[CsvCell.str "RL-001", CsvCell.str "t", CsvCell.str "h", CsvCell.str "p",
          CsvCell.str "s", CsvCell.str "w", CsvCell.str "ts"]]⟩)
        = .ok (.report r) ∧
      r.missing_columns = guardianRequiredColumns.filter
        (fun c => !(guardianRequiredColumns : List String).contains c) ∧
      (r.status = "ok" ∨ r.status = "warn") ∧
      (r.status = "ok" ↔
        (guardianRequiredColumns.filter
            (fun c => !(guardianRequiredColumns : List String).contains c) = [] ∧
         (([[CsvCell.str "RL-001", CsvCell.str "t", CsvCell.str "h", CsvCell.str "p",
             CsvCell.str "s", CsvCell.str "w", CsvCell.str "ts"]] : List (List CsvCell)).any
            fun row => row.any fun c => c == CsvCell.nan) = false ∧
         dupCount (([[CsvCell.str "RL-001", CsvCell.str "t", CsvCell.str "h", CsvCell.str "p",
             CsvCell.str "s", CsvCell.str "w", CsvCell.str "ts"]] : List (List CsvCell)).map
            fun row => row.getD 0 CsvCell.nan) = 0)) :=
  (c6_guardian_scan_ledger _).2.2 _ 0 rfl rfl

/-- Helper: the context pulled by `run` ignores the state field it just set. -/
theorem agentRunContext_set_state (a : Agent) (st : String) :
    agentRunContext { a with state := st } = agentRunContext a := rfl

/-- C3, counterexample: an exception whose text is empty (Python
`raise ValueError()` has `str(e) = ""`) yields `error = Some ""` — the
exception text verbatim, but *not* non-empty as the claim asserts. -/
theorem c3_counterexample :
    ((runAgent ⟨"id-1", "SimpleAgent", ⟨"demo", "openai", none, true, false⟩,
        "idle", some ⟨[], 50⟩, [], none⟩
        (fun _ _ => Except.error "") (fun _ => Except.ok []) (fun _ => Except.ok "")
        (AgentInput.str "hi") ⟨2024, 1, 1, 0, 0, 0, 0⟩).2).state = "error" ∧
    ((runAgent ⟨"id-1", "SimpleAgent", ⟨"demo", "openai", none, true, false⟩,
        "idle", some ⟨[], 50⟩, [], none⟩
        (fun _ _ => Except.error "") (fun _ => Except.ok []) (fun _ => Except.ok "")
        (AgentInput.str "hi") ⟨2024, 1, 1, 0, 0, 0, 0⟩).2).error = some "" := by
  exact ⟨rfl, rfl⟩

/-- C3 (amended): `run` never raises — it is a total function into
`Agent × AgentResponse`; whenever `think`, `act` or `observe` raises,
the response has state `"error"`, its `error` field is the exception
text verbatim (so it is empty exactly when the exception's text is
empty), and its content is the fixed generic failure message
`"An error occurred while processing your request."`; on the success
path the state is `"completed"` and `error` is absent. -/
theorem c3_run_error_conversion (a : Agent)
    (think : AgentInput → List Message → Except String String)
    (act : String → Except String (List (String × String)))
    (observe : List (String × String) → Except String String)
    (input : AgentInput) (now : PyDateTime) :
    (∀ e, cycleFirstFailure think act observe input (agentRunContext a) = some e →
      (runAgent a think act observe input now).2.state = "error" ∧
      (runAgent a think act observe input now).2.error = some e ∧
      (runAgent a think act observe input now).2.content
        = "An error occurred while processing your request.") ∧
    (cycleFirstFailure think act observe input (agentRunContext a) = none →
      (runAgent a think act observe input now).2.state = "completed" ∧
      (runAgent a think act observe input now).2.error = none) := by
  constructor
  · intro e he
    cases hth : think input (agentRunContext a) with
    | error e1 =>
      simp only [cycleFirstFailure, hth, Option.some.injEq] at he
      subst he
      simp [runAgent, agentRunContext_set_state, hth, runErrorPair]
    | ok thought =>
      cases hact : act thought with
      | error e1 =>
        simp only [cycleFirstFailure, hth, hact, Option.some.injEq] at he
        subst he
        simp [runAgent, agentRunContext_set_state, hth, hact, runErrorPair]
      | ok action =>
        cases hobs : observe action with
        | error e1 =>
          simp only [cycleFirstFailure, hth, hact, hobs, Option.some.injEq] at he
          subst he
          simp [runAgent, agentRunContext_set_state, hth, hact, hobs, runErrorPair]
        | ok obs =>
          simp only [cycleFirstFailure, hth, hact, hobs] at he
          exact Option.noConfusion he
  · intro hnone
    cases hth : think input (agentRunContext a) with
    | error e1 =>
      simp only [cycleFirstFailure, hth] at hnone
      exact Option.noConfusion hnone
    | ok thought =>
      cases hact : act thought with
      | error e1 =>
        simp only [cycleFirstFailure, hth, hact] at hnone
        exact Option.noConfusion hnone
      | ok action =>
        cases hobs : observe action with
        | error e1 =>
          simp only [cycleFirstFailure, hth, hact, hobs] at hnone
          exact Option.noConfusion hnone
        | ok obs =>
          simp only [runAgent, agentRunContext_set_state, hth, hact, hobs]
          exact ⟨trivial, trivial⟩

/-- C3 witness: the amended theorem applied to a concrete agent where
`act` raises `"boom"`, and one where every step succeeds. -/
theorem c3_run_error_conversion_witness :
    ((runAgent ⟨"id-2", "SimpleAgent", ⟨"demo", "openai", none, true, false⟩,
        "idle", some ⟨[], 50⟩, [], none⟩
        (fun _ _ => Except.ok "thinking about it") (fun _ => Except.error "boom")
        (fun _ => Except.ok "done") (AgentInput.str "hi")
        ⟨2024, 1, 1, 0, 0, 0, 0⟩).2).state = "error" ∧
    ((runAgent ⟨"id-2", "SimpleAgent", ⟨"demo", "openai", none, true, false⟩,
        "idle", some ⟨[], 50⟩, [], none⟩
        (fun _ _ => Except.ok "thinking about it") (fun _ => Except.error "boom")
        (fun _ => Except.ok "done") (AgentInput.str "hi")
        ⟨2024, 1, 1, 0, 0, 0, 0⟩).2).error = some "boom" ∧
    ((runAgent ⟨"id-2", "SimpleAgent", ⟨"demo", "openai", none, true, false⟩,
        "idle", some ⟨[], 50⟩, [], none⟩
        (fun _ _ => Except.ok "thinking about it") (fun _ => Except.error "boom")
        (fun _ => Except.ok "done") (AgentInput.str "hi")
        ⟨2024, 1, 1, 0, 0, 0, 0⟩).2).content
      = "An error occurred while processing your request." ∧
    ((runAgent ⟨"id-2", "SimpleAgent", ⟨"demo", "openai", none, true, false⟩,
        "idle", some ⟨[], 50⟩, [], none⟩
        (fun _ _ => Except.ok "thinking about it") (fun _ => Except.ok [("type", "response_generation")])
        (fun _ => Except.ok "done") (AgentInput.str "hi")
        ⟨2024, 1, 1, 0, 0, 0, 0⟩).2).state = "completed" := by
  have h1 := (c3_run_error_conversion
    ⟨"id-2", "SimpleAgent", ⟨"demo", "openai", none, true, false⟩,
      "idle", some ⟨[], 50⟩, [], none⟩
    (fun _ _ => Except.ok "thinking about it") (fun _ => Except.error "boom")
    (fun _ => Except.ok "done") (AgentInput.str "hi") ⟨2024, 1, 1, 0, 0, 0, 0⟩).1
    "boom" rfl
  have h2 := (c3_run_error_conversion
    ⟨"id-2", "SimpleAgent", ⟨"demo", "openai", none, true, false⟩,
      "idle", some ⟨[], 50⟩, [], none⟩
    (fun _ _ => Except.ok "thinking about it")
    (fun _ => Except.ok [("type", "response_generation")])
    (fun _ => Except.ok "done") (AgentInput.str "hi") ⟨2024, 1, 1, 0, 0, 0, 0⟩).2 rfl
  exact ⟨h1.1, h1.2.1, h1.2.2, h2.1⟩

/-- C9, counterexample: with memory enabled and 11 short-term entries
(no system prompt), `chat` hands the adapter only the **last 10** of
them, not the short-term memory contents: an oracle that reports the
length of the list it receives as the exception text records `"10"`,
and the assembled list differs from system-prompt-plus-full-memory. -/
theorem c9_counterexample :
    ((chatAgent ⟨"id-9", "SimpleAgent", ⟨"demo", "openai", none, true, false⟩, "idle",
        some ⟨[⟨.user, "m1"⟩, ⟨.user, "m2"⟩, ⟨.user, "m3"⟩, ⟨.user, "m4"⟩, ⟨.user, "m5"⟩,
              ⟨.user, "m6"⟩, ⟨.user, "m7"⟩, ⟨.user, "m8"⟩, ⟨.user, "m9"⟩, ⟨.user, "m10"⟩,
              ⟨.user, "m11"⟩], 50⟩, [], none⟩
        (fun L => Except.error (toString L.length)) "hello").2).error = some "10" ∧
    chatMessages none
        (some ⟨[⟨.user, "m1"⟩, ⟨.user, "m2"⟩, ⟨.user, "m3"⟩, ⟨.user, "m4"⟩, ⟨.user, "m5"⟩,
              ⟨.user, "m6"⟩, ⟨.user, "m7"⟩, ⟨.user, "m8"⟩, ⟨.user, "m9"⟩, ⟨.user, "m10"⟩,
              ⟨.user, "m11"⟩], 50⟩)
        [⟨.user, "hello"⟩]
      ≠ sysPromptPart none ++
          [⟨.user, "m1"⟩, ⟨.user, "m2"⟩, ⟨.user, "m3"⟩, ⟨.user, "m4"⟩, ⟨.user, "m5"⟩,
           ⟨.user, "m6"⟩, ⟨.user, "m7"⟩, ⟨.user, "m8"⟩, ⟨.user, "m9"⟩, ⟨.user, "m10"⟩,
           ⟨.user, "m11"⟩] := by
  exact ⟨rfl, by decide⟩

/-- C9 (amended): for an agent with memory enabled, the message list
assembled for the adapter's `generate` call inside `chat(message)` is
the optional configured system prompt followed by the **last (up to) 10
entries** of short-term memory as they were before the call — it is
independent of the conversation history and of the current user
message, which is appended to short-term memory (together with the
reply) only after generation succeeds; on generation failure the memory
is untouched. -/
theorem c9_chat_memory_payload (a : Agent) (m : AgentMemory)
    (hm : a.memory = some m) (gen : List Message → Except String LLMResponse)
    (message : String) :
    (∀ history, chatMessages a.config.system_prompt a.memory history
        = sysPromptPart a.config.system_prompt ++ m.getContext 10) ∧
    (∀ e, gen (sysPromptPart a.config.system_prompt ++ m.getContext 10) = Except.error e →
      (chatAgent a gen message).1.memory = some m ∧
      (chatAgent a gen message).2.state = "error") ∧
    (∀ resp, gen (sysPromptPart a.config.system_prompt ++ m.getContext 10) = Except.ok resp →
      (chatAgent a gen message).1.memory
        = some ((m.addToShortTerm ⟨.user, message⟩).addToShortTerm
            ⟨.assistant, resp.content⟩) ∧
      (chatAgent a gen message).2.state = "completed") := by
  refine ⟨?_, ?_, ?_⟩
  · intro history
    simp [chatMessages, hm]
  · intro e hgen
    simp [chatAgent, chatMessages, hm, hgen]
  · intro resp hgen
    simp [chatAgent, chatMessages, hm, hgen]

/-- C9 witness: the amended theorem applied to a concrete memory-enabled
agent with three stored messages and a succeeding adapter. -/
theorem c9_chat_memory_payload_witness :
    chatMessages (Agent.config ⟨"id-9w", "SimpleAgent", ⟨"demo", "openai", none, true, false⟩,
          "idle", some ⟨[⟨.user, "a"⟩, ⟨.assistant, "b"⟩, ⟨.user, "c"⟩], 50⟩, [], none⟩).system_prompt
        (Agent.memory ⟨"id-9w", "SimpleAgent", ⟨"demo", "openai", none, true, false⟩,
          "idle", some ⟨[⟨.user, "a"⟩, ⟨.assistant, "b"⟩, ⟨.user, "c"⟩], 50⟩, [], none⟩)
        [⟨.user, "zzz"⟩]
      = sysPromptPart none ++
          AgentMemory.getContext ⟨[⟨.user, "a"⟩, ⟨.assistant, "b"⟩, ⟨.user, "c"⟩], 50⟩ 10 ∧
    ((chatAgent ⟨"id-9w", "SimpleAgent", ⟨"demo", "openai", none, true, false⟩,
          "idle", some ⟨[⟨.user, "a"⟩, ⟨.assistant, "b"⟩, ⟨.user, "c"⟩], 50⟩, [], none⟩
        (fun _ => Except.ok ⟨"reply", []⟩) "hi").1).memory
      = some ((AgentMemory.addToShortTerm ⟨[⟨.user, "a"⟩, ⟨.assistant, "b"⟩, ⟨.user, "c"⟩], 50⟩
          ⟨.user, "hi"⟩).addToShortTerm ⟨.assistant, "reply"⟩) := by
  have h := c9_chat_memory_payload
    ⟨"id-9w", "SimpleAgent", ⟨"demo", "openai", none, true, false⟩,
      "idle", some ⟨[⟨.user, "a"⟩, ⟨.assistant, "b"⟩, ⟨.user, "c"⟩], 50⟩, [], none⟩
    ⟨[⟨.user, "a"⟩, ⟨.assistant, "b"⟩, ⟨.user, "c"⟩], 50⟩ rfl
    (fun _ => Except.ok ⟨"reply", []⟩) "hi"
  exact ⟨h.1 [⟨.user, "zzz"⟩], (h.2.2 ⟨"reply", []⟩ rfl).1⟩

/-- C10: whenever the older-tree `MultimodalAgent.process_image` returns
a response with state `"error"` — exactly the cases "vision disabled for
this agent/model pair" and "the adapter's generate raised" — the agent
(in particular its short-term memory and conversation history) is
exactly as it was before the call; the prompt/reply pair is appended to
short-term memory only when generation succeeds, in which case the
response state is the default `"completed"`. -/
theorem c10_process_image_memory_isolation {I : Type} (a : MultimodalAgent)
    (gen : List Message → I → Except String LLMResponse) (image : I) (prompt : String) :
    ((processImage a gen image prompt).2.state = "error" →
      (processImage a gen image prompt).1 = a) ∧
    ((processImage a gen image prompt).2.state ≠ "error" →
      (processImage a gen image prompt).2.state = "completed" ∧
      (processImage a gen image prompt).1.conversation_history = a.conversation_history ∧
      ∃ resp, gen [⟨.user, prompt⟩] image = Except.ok resp ∧
        (processImage a gen image prompt).1.memory
          = (match a.memory with
             | some m => some ((m.addToShortTerm ⟨.user, prompt⟩).addToShortTerm
                 ⟨.assistant, resp.content⟩)
             | none => none)) ∧
    ((processImage a gen image prompt).2.state = "error" ↔
      a.vision_enabled = false ∨ ∃ e, gen [⟨.user, prompt⟩] image = Except.error e) := by
  cases hv : a.vision_enabled with
  | false =>
    refine ⟨fun _ => ?_, fun h => absurd ?_ h, ?_⟩
    · simp [processImage, hv]
    · simp [processImage, hv]
    · simp [processImage, hv]
  | true =>
    cases hgen : gen [⟨.user, prompt⟩] image with
    | error e =>
      refine ⟨fun _ => ?_, fun h => absurd ?_ h, ?_⟩
      · simp [processImage, hv, hgen]
      · simp [processImage, hv, hgen]
      · simp [processImage, hv, hgen]
    | ok resp =>
      refine ⟨fun h => absurd h ?_, fun _ => ⟨?_, ?_, resp, rfl, ?_⟩, ?_⟩
      · simp [processImage, hv, hgen]
        decide
      · simp [processImage, hv, hgen]
      · cases hmem : a.memory <;> simp [processImage, hv, hgen, hmem]
      · cases hmem : a.memory <;> simp [processImage, hv, hgen, hmem]
      · simp [processImage, hv, hgen]
        decide

/-- C10 witness: the theorem applied at a vision-enabled agent with a
succeeding adapter (success path appends to memory) and at a
vision-disabled agent (error response, agent untouched). -/
theorem c10_process_image_memory_isolation_witness :
    (processImage ⟨"id-10", ⟨"mm", "openai", none, true, true⟩, true,
        some ⟨[], 50⟩, []⟩
      (fun _ _ => Except.ok ⟨"a cat", []⟩) () "what is in this image").2.state
        = "completed" ∧
    (processImage ⟨"id-10", ⟨"mm", "openai", none, true, true⟩, false,
        some ⟨[⟨.user, "old"⟩], 50⟩, []⟩
      (fun _ _ => Except.ok ⟨"a cat", []⟩) () "what is in this image").1
        = ⟨"id-10", ⟨"mm", "openai", none, true, true⟩, false,
           some ⟨[⟨.user, "old"⟩], 50⟩, []⟩ := by
  have h1 := c10_process_image_memory_isolation
    (⟨"id-10", ⟨"mm", "openai", none, true, true⟩, true, some ⟨[], 50⟩, []⟩ : MultimodalAgent)
    (fun _ _ => Except.ok ⟨"a cat", []⟩) () "what is in this image"
  have h2 := c10_process_image_memory_isolation
    (⟨"id-10", ⟨"mm", "openai", none, true, true⟩, false,
      some ⟨[⟨.user, "old"⟩], 50⟩, []⟩ : MultimodalAgent)
    (fun _ _ => Except.ok ⟨"a cat", []⟩) () "what is in this image"
  exact ⟨(h1.2.1 (by decide)).1, h2.1 (by decide)⟩

/-- C1: evaluation of the `process-image` endpoint at the claim's two
failure cases, for a stored image-capable agent under default settings:
a disallowed filename extension (`photo.exe`, valid content type, small
body) and an oversized body (valid type and extension).  Both are
rejected before any agent processing, but with **HTTP 500** — the
`HTTPException(400/413)` raised inside the `try` block is caught by the
blanket `except Exception` and re-raised as a 500 — not with the 400
and 413 the claim (and the code's own raised status codes) intend. -/
theorem c1_code_bug_evidence :
    processImageEndpoint {} true true (some "image/png") (some "photo.exe") 100
        ⟨"aid", "mm", "looks fine", "completed", none, none⟩
      = .err 500 "Image processing failed: 400: Unsupported image file extension" ∧
    processImageEndpoint {} true true (some "image/png") (some "photo.png")
        (10 * 1024 * 1024 + 1)
        ⟨"aid", "mm", "looks fine", "completed", none, none⟩
      = .err 500 "Image processing failed: 413: Image too large" ∧
    processImageEndpoint {} true true (some "image/png") (some "photo.png") 100
        ⟨"aid", "mm", "looks fine", "completed", none, none⟩
      = .ok ⟨"aid", "mm", "looks fine", "completed", none, none⟩ := by
  refine ⟨by decide, by decide, by decide⟩

/-- Helper: incrementing a client's counter raises its read by one. -/
theorem countsGet_countsIncr_self (c : List (String × Nat)) (k : String) :
    countsGet (countsIncr c k) k = countsGet c k + 1 := by
  induction c with
  | nil => simp [countsGet, countsIncr, List.lookup]
  | cons p rest ih =>
    obtain ⟨k2, v⟩ := p
    by_cases h : k2 = k
    · subst h; simp [countsGet, countsIncr, List.lookup]
    · have hbeq : (k == k2) = false := by
        simp [Ne.symm h]
      simp only [countsIncr, if_neg h, countsGet, List.lookup, hbeq]
      simpa [countsGet] using ih

/-- Helper: one in-window request from `key` increments its counter,
keeps the window start, and is limited iff the incremented count
exceeds the quota. -/
theorem securityMiddleware_inWindow (st : AppSettings) (t : Rat) (key : String)
    (s : RateState) (hen : st.rate_limit_enabled = true)
    (hredis : st.redis_url = none)
    (hle : ¬ (t - s.windowStartsAt > (st.rate_limit_period : Rat))) :
    securityMiddleware st 0 t key s
      = (if countsGet s.counts key + 1 > st.rate_limit_requests then .rateLimited
         else .forwarded,
         { s with counts := countsIncr s.counts key }) := by
  by_cases hc : countsGet s.counts key + 1 > st.rate_limit_requests <;>
    simp [securityMiddleware, hen, hredis, hle, hc]

/-- Helper: a run of same-client requests all inside the current window
produces limited outcomes exactly beyond the quota, never moves the
window start, and adds one count per request. -/
theorem processRequests_window (st : AppSettings) (key : String)
    (hen : st.rate_limit_enabled = true) (hredis : st.redis_url = none) :
    ∀ (times : List Rat) (s : RateState),
      (∀ t ∈ times, t - s.windowStartsAt ≤ (st.rate_limit_period : Rat)) →
      (processRequests st s (times.map fun t => (t, key))).1
        = (List.range times.length).map (fun i =>
            if countsGet s.counts key + i + 1 > st.rate_limit_requests then
              MwOutcome.rateLimited else MwOutcome.forwarded) ∧
      (processRequests st s (times.map fun t => (t, key))).2.windowStartsAt
        = s.windowStartsAt ∧
      countsGet (processRequests st s (times.map fun t => (t, key))).2.counts key
        = countsGet s.counts key + times.length := by
  intro times
  induction times with
  | nil => intro s _; simp [processRequests]
  | cons t ts ih =>
    intro s hwin
    have hle : ¬ (t - s.windowStartsAt > (st.rate_limit_period : Rat)) :=
      not_lt.2 (hwin t (by simp))
    have hstep := securityMiddleware_inWindow st t key s hen hredis hle
    have hwin2 : ∀ t2 ∈ ts,
        t2 - ({ s with counts := countsIncr s.counts key } : RateState).windowStartsAt
          ≤ (st.rate_limit_period : Rat) := by
      intro t2 ht2
      exact hwin t2 (by simp [ht2])
    obtain ⟨ih1, ih2, ih3⟩ := ih { s with counts := countsIncr s.counts key } hwin2
    refine ⟨?_, ?_, ?_⟩
    · simp only [List.map_cons, processRequests, hstep, ih1, List.length_cons,
        List.range_succ_eq_map, List.map_map]
      congr 1
      apply List.map_congr_left
      intro i _
      simp only [Function.comp]
      rw [countsGet_countsIncr_self]
      exact if_congr (by omega) rfl rfl
    · simp only [List.map_cons, processRequests, hstep]
      exact ih2
    · simp only [List.map_cons, processRequests, hstep]
      rw [ih3, countsGet_countsIncr_self]
      simp only [List.length_cons]
      omega

/-- C2: with rate limiting enabled, no external counter backend
configured, and a quota of at least one request, a same-client run of
requests inside one window (and a fresh counter for that client) gets
HTTP 429 exactly on each request beyond the quota — request `i+1` is
limited iff `i + 1 > RATE_LIMIT_REQUESTS` — and a request issued after
the window has elapsed resets the window and is served again. -/
theorem c2_rate_limit_window (st : AppSettings) (s0 : RateState) (times : List Rat)
    (key : String) (hen : st.rate_limit_enabled = true) (hredis : st.redis_url = none)
    (hreq : 1 ≤ st.rate_limit_requests) (hc0 : countsGet s0.counts key = 0)
    (hwin : ∀ t ∈ times, t - s0.windowStartsAt ≤ (st.rate_limit_period : Rat)) :
    (processRequests st s0 (times.map fun t => (t, key))).1
      = (List.range times.length).map (fun i =>
          if i + 1 > st.rate_limit_requests then MwOutcome.rateLimited
          else MwOutcome.forwarded) ∧
    (∀ t2, t2 - s0.windowStartsAt > (st.rate_limit_period : Rat) →
      (securityMiddleware st 0 t2 key
          (processRequests st s0 (times.map fun t => (t, key))).2).1
        = MwOutcome.forwarded) := by
  obtain ⟨h1, h2, h3⟩ := processRequests_window st key hen hredis times s0 hwin
  constructor
  · rw [h1]
    apply List.map_congr_left
    intro i _
    rw [hc0]
    exact if_congr (by omega) rfl rfl
  · intro t2 ht2
    have hreset : t2 - (processRequests st s0 (times.map fun t => (t, key))).2.windowStartsAt
        > (st.rate_limit_period : Rat) := by
      rw [h2]; exact ht2
    have hnl : ¬ (countsGet ([] : List (String × Nat)) key + 1 > st.rate_limit_requests) := by
      simp [countsGet, List.lookup]
      omega
    simp [securityMiddleware, hen, hredis, hreset, hnl]

/-- C2 witness: quota 2, period 60 s, window starting at 0: three
requests at 10 s, 11 s, 12 s give pass, pass, 429; a request at 100 s
(past the window) passes again. -/
theorem c2_rate_limit_window_witness :
    (processRequests { rate_limit_requests := 2, rate_limit_period := 60 } ⟨0, []⟩
        (([10, 11, 12] : List Rat).map fun t => (t, "1.2.3.4"))).1
      = [MwOutcome.forwarded, MwOutcome.forwarded, MwOutcome.rateLimited] ∧
    (securityMiddleware { rate_limit_requests := 2, rate_limit_period := 60 } 0 100 "1.2.3.4"
        (processRequests { rate_limit_requests := 2, rate_limit_period := 60 } ⟨0, []⟩
          (([10, 11, 12] : List Rat).map fun t => (t, "1.2.3.4"))).2).1
      = MwOutcome.forwarded := by
  have h := c2_rate_limit_window
    { rate_limit_requests := 2, rate_limit_period := 60 } ⟨0, []⟩ [10, 11, 12] "1.2.3.4"
    rfl rfl (by decide) (by decide)
    (by
      intro t ht
      simp at ht
      rcases ht with rfl | rfl | rfl <;> norm_num)
  refine ⟨?_, h.2 100 (by norm_num)⟩
  rw [h.1]
  decide

/-- Helper: files contributing no entry leave the fold unchanged. -/
theorem groundFold_all_none (pdfAvail : Bool) (files : List GroundFile)
    (h : ∀ f ∈ files, groundFileEntry pdfAvail f = none) :
    ∀ acc, files.foldl
        (fun acc f =>
          match groundFileEntry pdfAvail f with
          | some (k, v) => dictUpsert acc k v
          | none => acc) acc = acc := by
  induction files with
  | nil => intro acc; rfl
  | cons f fs ih =>
    intro acc
    have hf := h f (by simp)
    simp only [List.foldl_cons, hf]
    exact ih (fun g hg => h g (List.mem_cons_of_mem _ hg)) acc

/-- Helper: the document fold only sees files that contribute entries. -/
theorem groundFold_filter (pdfAvail : Bool) (files : List GroundFile) :
    ∀ acc, files.foldl
        (fun acc f =>
          match groundFileEntry pdfAvail f with
          | some (k, v) => dictUpsert acc k v
          | none => acc) acc
      = (files.filter fun f => (groundFileEntry pdfAvail f).isSome).foldl
          (fun acc f =>
            match groundFileEntry pdfAvail f with
            | some (k, v) => dictUpsert acc k v
            | none => acc) acc := by
  induction files with
  | nil => intro acc; rfl
  | cons f fs ih =>
    intro acc
    cases hf : groundFileEntry pdfAvail f with
    | none => simp [List.foldl_cons, List.filter_cons, hf, ih]
    | some kv => simp [List.foldl_cons, List.filter_cons, hf, ih]

/-- C8: `get_grounding_summary` returns the empty string whenever no
ethics/grounding path is configured (the configured value strips to
empty) or the configured directory does not exist; I/O and parse
failures while loading are treated as "no documents" rather than
propagated — a directory in which every file fails (or is skipped)
summarizes to the empty string, and in general the result is the same
as if the failing files were absent.  All functions are total: nothing
is raised to the caller. -/
theorem c8_grounding_summary (base : String) (fs : GroundFS) (maxChars : Nat) :
    (pyStrip base = "" → getGroundingSummary base fs maxChars = "") ∧
    (fs.dirOk = false → getGroundingSummary base fs maxChars = "") ∧
    ((∀ f ∈ fs.files, groundFileEntry fs.pdfReaderAvailable f = none) →
      getGroundingSummary base fs maxChars = "") ∧
    getGroundingSummary base fs maxChars
      = getGroundingSummary base
          { fs with files :=
              fs.files.filter (fun f => (groundFileEntry fs.pdfReaderAvailable f).isSome) }
          maxChars := by
  refine ⟨?_, ?_, ?_, ?_⟩
  · intro h
    simp [getGroundingSummary, loadGroundingDocuments, h]
  · intro h
    have hdocs : loadGroundingDocuments base fs = [] := by
      unfold loadGroundingDocuments
      rw [h]
      split <;> simp
    simp [getGroundingSummary, hdocs]
  · intro h
    have hdocs : loadGroundingDocuments base fs = [] := by
      unfold loadGroundingDocuments
      split
      · rfl
      · split
        · rfl
        · exact groundFold_all_none _ _ h []
    simp [getGroundingSummary, hdocs]
  · have hdocs : loadGroundingDocuments base fs
        = loadGroundingDocuments base
            { fs with files :=
                fs.files.filter (fun f => (groundFileEntry fs.pdfReaderAvailable f).isSome) } := by
      unfold loadGroundingDocuments
      simp only []
      split
      · rfl
      · split
        · rfl
        · exact groundFold_filter _ _ []
    unfold getGroundingSummary
    rw [hdocs]

/-- C8 witness: a whitespace-only configured path yields the empty
summary; so does an existing directory whose only matching file fails
to read. -/
theorem c8_grounding_summary_witness :
    getGroundingSummary " " ⟨true, true, [GroundFile.textLike "a.md" ".md" (Except.ok "x")]⟩
        4000 = "" ∧
    getGroundingSummary "docs" ⟨true, true,
        [GroundFile.textLike "a.md" ".md" (Except.error ()),
         GroundFile.other "sub"]⟩ 4000 = "" :=
  ⟨(c8_grounding_summary " " ⟨true, true, [GroundFile.textLike "a.md" ".md" (Except.ok "x")]⟩
      4000).1 (by decide),
   (c8_grounding_summary "docs" ⟨true, true,
        [GroundFile.textLike "a.md" ".md" (Except.error ()),
         GroundFile.other "sub"]⟩ 4000).2.2.1 (by decide)⟩

end MAB
